import Mathlib

/-!
Verification development for the WellLiquidMonitor liquid-loading detector.

The definitions below are a shallow embedding of the detection core in
`src/process.py` (class `LiquidLoadingDetector`).  Timestamps are modelled
as natural numbers counting whole hours since an epoch (the source data is
hour-aligned after `resample('h').first()`, and `strftime`/`to_datetime`
round-trips are the identity at this resolution; a calendar date is the
hour count divided by 24).  pandas/numpy float scalars are modelled by the
inductive type `PVal` with finite rationals, the two infinities and NaN,
with the arithmetic and comparison behaviour of the operations the source
actually performs (subtraction, division — where a zero divisor yields a
signed infinity or NaN exactly as numpy does — multiplication by a finite
constant, absolute value, and the NaN-rejecting comparisons).  The pandas
reductions `max`/`min`/`mean` skip NaN entries, as `Series.max/min/mean`
do with their default `skipna=True`.

An hourly record missing from the input list plays the role of an
all-NaN resampled row: such a row is dropped by both the
`switch_status == 0` and the `switch_status == 1` filters in the source,
so omitting it is observationally equivalent.

In the source, `check_pressure_up_flow_down` (and the three sibling
checks) intersect the daily-pressure index with the daily-production
index.  Both series are produced by resampling the very same
open-status subframe by calendar day, so they carry the identical index
(the full day span from the first to the last open row) and the inner
join is the identity; the embedding therefore builds both series over
the shared `daysSpan` index directly.
-/

/-- One hourly record of the resampled well table (the columns of
`load_well_data` that the detection core reads).  `switch_status` is
`0` for an open well and `1` for a closed (shut-in) well. -/
structure Row where
  time : ℕ
  oil_pressure : ℚ
  casing_pressure : ℚ
  total_gas_flow : ℚ
  switch_status : ℕ
deriving DecidableEq

/-- The parameter bundle of `config.py` (`Config.__init__` defaults). -/
structure Config where
  data_days : ℕ
  days_window : ℕ
  change_threshold : ℚ
  stable_pressure_threshold : ℚ
  zigzag_threshold : ℚ
  zigzag_window : ℕ
  pressure_diff_threshold : ℚ
  closed_hours : ℕ
deriving DecidableEq

/-- The default configuration values set in `Config.__init__`. -/
def defaultConfig : Config :=
  { data_days := 20, days_window := 10, change_threshold := 20
    stable_pressure_threshold := 5, zigzag_threshold := 20, zigzag_window := 3
    pressure_diff_threshold := 3, closed_hours := 48 }

/-- A pandas/numpy float scalar: a finite rational, `inf`, `-inf` or `NaN`. -/
inductive PVal
  | num (q : ℚ)
  | pinf
  | ninf
  | nan
deriving DecidableEq

/-- Float subtraction as used on series values (both operands are finite
or NaN in every reachable call; NaN propagates). -/
def psub : PVal → PVal → PVal
  | .num a, .num b => .num (a - b)
  | _, _ => .nan

/-- Float division.  numpy turns a zero divisor under a nonzero finite
numerator into a signed infinity and `0.0/0.0` into NaN; NaN propagates.
(The numerator is finite or NaN in every reachable call.) -/
def pdiv : PVal → PVal → PVal
  | .num a, .num b =>
      if b ≠ 0 then .num (a / b)
      else if 0 < a then .pinf
      else if a < 0 then .ninf
      else .nan
  | _, _ => .nan

/-- Float multiplication (used only to scale by the finite constant 100;
infinities keep or flip their sign by the sign of the finite factor). -/
def pmul : PVal → PVal → PVal
  | .num a, .num b => .num (a * b)
  | .pinf, .num b => if 0 < b then .pinf else if b < 0 then .ninf else .nan
  | .ninf, .num b => if 0 < b then .ninf else if b < 0 then .pinf else .nan
  | _, _ => .nan

/-- Float absolute value. -/
def pabs : PVal → PVal
  | .num a => .num |a|
  | .pinf => .pinf
  | .ninf => .pinf
  | .nan => .nan

/-- Float strict less-than: any comparison with NaN is false. -/
def plt : PVal → PVal → Bool
  | .num a, .num b => decide (a < b)
  | .num _, .pinf => true
  | .ninf, .num _ => true
  | .ninf, .pinf => true
  | _, _ => false

/-- Float less-or-equal: any comparison with NaN is false. -/
def ple : PVal → PVal → Bool
  | .num a, .num b => decide (a ≤ b)
  | .num _, .pinf => true
  | .ninf, .num _ => true
  | .ninf, .pinf => true
  | .pinf, .pinf => true
  | .ninf, .ninf => true
  | _, _ => false

/-- Float strict greater-than. -/
def pgt (a b : PVal) : Bool := plt b a

/-- The finite entries of a list of float scalars (what the
`skipna=True` pandas reductions actually aggregate). -/
def numsOf (l : List PVal) : List ℚ :=
  l.filterMap (fun v => match v with | .num q => some q | _ => none)

/-- Maximum of a list of rationals (0 on the empty list, which no
reachable call hits). -/
def qmaxList : List ℚ → ℚ
  | [] => 0
  | x :: xs => xs.foldl max x

/-- Minimum of a list of rationals (0 on the empty list, which no
reachable call hits). -/
def qminList : List ℚ → ℚ
  | [] => 0
  | x :: xs => xs.foldl min x

/-- `Series.max()` with `skipna=True`: NaN iff no finite entry exists. -/
def pmaxL (l : List PVal) : PVal :=
  if (numsOf l).isEmpty then .nan else .num (qmaxList (numsOf l))

/-- `Series.min()` with `skipna=True`. -/
def pminL (l : List PVal) : PVal :=
  if (numsOf l).isEmpty then .nan else .num (qminList (numsOf l))

/-- `Series.mean()` with `skipna=True`. -/
def pmeanL (l : List PVal) : PVal :=
  if (numsOf l).isEmpty then .nan
  else .num ((numsOf l).sum / ((numsOf l).length : ℚ))

/-- `df[df['switch_status'] == 0]`: the open-well rows. -/
def openRows (rows : List Row) : List Row :=
  rows.filter (fun r => r.switch_status == 0)

/-- `df[df['switch_status'] == 1]`: the closed-well rows
(`closed_periods` in `check_pressure_difference`). -/
def closedRows (rows : List Row) : List Row :=
  rows.filter (fun r => r.switch_status == 1)

/-- The calendar day of an hour-resolution timestamp. -/
def dayOf (t : ℕ) : ℕ := t / 24

/-- The run of calendar days covered by `resample('D')` on a subframe:
every day from the day of its first row to the day of its last row
(empty for an empty subframe). -/
def daysSpan (rs : List Row) : List ℕ :=
  match rs.head?, rs.getLast? with
  | some a, some b =>
      (List.range (dayOf b.time + 1 - dayOf a.time)).map (fun k => dayOf a.time + k)
  | _, _ => []

/-- The rows of a subframe falling on a given calendar day. -/
def rowsOnDay (rs : List Row) (d : ℕ) : List Row :=
  rs.filter (fun r => dayOf r.time == d)

/-- The `resample('D').last()` aggregate of `total_gas_flow` on one day:
the day's last reading, NaN for a day with no rows. -/
def lastTotalOn (rs : List Row) (d : ℕ) : PVal :=
  match (rowsOnDay rs d).getLast? with
  | some r => .num r.total_gas_flow
  | none => .nan

/-- The `resample('D').mean()` aggregate of `casing_pressure` on one day:
the day's mean reading, NaN for a day with no rows. -/
def meanCasingOn (rs : List Row) (d : ℕ) : PVal :=
  match rowsOnDay rs d with
  | [] => .nan
  | l => .num ((l.map (fun r => r.casing_pressure)).sum / (l.length : ℚ))

/-- `self.daily_total`: last cumulative `total_gas_flow` of each calendar
day over the open rows (`_calculate_daily_production`, first two lines). -/
def daily_total (rows : List Row) : List (ℕ × PVal) :=
  (daysSpan (openRows rows)).map (fun d => (d, lastTotalOn (openRows rows) d))

/-- `Series.diff()`: first entry NaN, every later entry the difference
with its predecessor (NaN-propagating). -/
def diffSeries : List (ℕ × PVal) → List (ℕ × PVal)
  | [] => []
  | x :: xs =>
      (x.1, PVal.nan) :: (xs.zip (x :: xs)).map (fun p => (p.1.1, psub p.1.2 p.2.2))

/-- `self.daily_gas_production = self.daily_total.diff()`
(`_calculate_daily_production`). -/
def daily_gas_production (rows : List Row) : List (ℕ × PVal) :=
  diffSeries (daily_total rows)

/-- The daily mean casing pressure over open rows, computed identically
at the head of `check_pressure_up_flow_down`, `check_stable_pressure_flow_down`
and `check_sawtooth_pattern`. -/
def daily_pressure (rows : List Row) : List (ℕ × PVal) :=
  (daysSpan (openRows rows)).map (fun d => (d, meanCasingOn (openRows rows) d))

/-- `pressure_change = (end_pressure - start_pressure) / start_pressure * 100`
(process.py line 76 / 106 before `abs`). -/
def pressure_change (startP endP : PVal) : PVal :=
  pmul (pdiv (psub endP startP) startP) (.num 100)

/-- `flow_change = (end_prod - start_prod) / start_prod * 100 if start_prod != 0 else 0`
(process.py lines 77 and 107). -/
def flow_change (startProd endProd : PVal) : PVal :=
  if startProd ≠ .num 0 then pmul (pdiv (psub endProd startProd) startProd) (.num 100)
  else .num 0

/-- `pressure_fluctuation = (max - min) / mean * 100` over a pressure
sub-window (process.py line 136). -/
def pressure_fluctuation (pw : List PVal) : PVal :=
  pmul (pdiv (psub (pmaxL pw) (pminL pw)) (pmeanL pw)) (.num 100)

/-- `flow_fluctuation = (max - min) / mean * 100 if mean != 0 else 0`
over a flow sub-window (process.py line 137). -/
def flow_fluctuation (fw : List PVal) : PVal :=
  if pmeanL fw ≠ .num 0 then pmul (pdiv (psub (pmaxL fw) (pminL fw)) (pmeanL fw)) (.num 100)
  else .num 0

/-- A matched interval.  `start_date`/`end_date` are hour-resolution
timestamps (methods 1–3 stamp whole days, i.e. multiples of 24).
`metric1`/`metric2` carry the method-specific magnitudes: pressure
change/fluctuation and flow change/fluctuation for methods 1–3, the
maximum pressure differential (and an unused NaN) for method 4.  The
one- and two-decimal string formatting of the source is presentation
only and is not modelled. -/
structure Period where
  start_date : ℕ
  end_date : ℕ
  metric1 : PVal
  metric2 : PVal
deriving DecidableEq

/-- The loop body of `check_pressure_up_flow_down` at window start `i`:
the emitted period, if the window qualifies. -/
def matchWindow1 (cfg : Config) (dp dprod : List (ℕ × PVal)) (i : ℕ) : Option Period :=
  let sp := (dp.getD i (0, .nan)).2
  let ep := (dp.getD (i + cfg.days_window - 1) (0, .nan)).2
  let s := (dprod.getD i (0, .nan)).2
  let e := (dprod.getD (i + cfg.days_window - 1) (0, .nan)).2
  let pc := pressure_change sp ep
  let fc := flow_change s e
  if pgt pc (.num cfg.change_threshold) && plt fc (.num (-cfg.change_threshold)) then
    some ⟨(dp.getD i (0, .nan)).1 * 24, (dp.getD (i + cfg.days_window - 1) (0, .nan)).1 * 24,
          pc, fc⟩
  else none

/-- The loop body of `check_stable_pressure_flow_down` at window start `i`. -/
def matchWindow2 (cfg : Config) (dp dprod : List (ℕ × PVal)) (i : ℕ) : Option Period :=
  let sp := (dp.getD i (0, .nan)).2
  let ep := (dp.getD (i + cfg.days_window - 1) (0, .nan)).2
  let s := (dprod.getD i (0, .nan)).2
  let e := (dprod.getD (i + cfg.days_window - 1) (0, .nan)).2
  let pc := pabs (pressure_change sp ep)
  let fc := flow_change s e
  if plt pc (.num cfg.stable_pressure_threshold) && plt fc (.num (-cfg.change_threshold)) then
    some ⟨(dp.getD i (0, .nan)).1 * 24, (dp.getD (i + cfg.days_window - 1) (0, .nan)).1 * 24,
          pc, fc⟩
  else none

/-- The loop body of `check_sawtooth_pattern` at window start `i`. -/
def matchWindow3 (cfg : Config) (dp dprod : List (ℕ × PVal)) (i : ℕ) : Option Period :=
  let pw := ((dp.drop i).take cfg.zigzag_window).map (fun e => e.2)
  let fw := ((dprod.drop i).take cfg.zigzag_window).map (fun e => e.2)
  let pf := pressure_fluctuation pw
  let ff := flow_fluctuation fw
  if pgt pf (.num cfg.zigzag_threshold) && pgt ff (.num cfg.zigzag_threshold) then
    some ⟨(dp.getD i (0, .nan)).1 * 24, (dp.getD (i + cfg.zigzag_window - 1) (0, .nan)).1 * 24,
          pf, ff⟩
  else none

/-- A default row (never read from in a reachable state). -/
def row0 : Row := ⟨0, 0, 0, 0, 0⟩

/-- The `closed_hours`-row window of closed rows starting at index `i`
(`closed_periods.iloc[i:i+closed_hours]`). -/
def windowAt (cr : List Row) (c i : ℕ) : List Row :=
  (cr.drop i).take c

/-- `(window.index[-1] - window.index[0]).total_seconds() / 3600`. -/
def spanHours (w : List Row) : ℤ :=
  ((w.getLastD row0).time : ℤ) - ((w.headD row0).time : ℤ)

/-- The per-hour `abs(oil_pressure - casing_pressure)` differentials of a window. -/
def pressureDiffs (w : List Row) : List ℚ :=
  w.map (fun r => |r.oil_pressure - r.casing_pressure|)

/-- The period emitted for an accepted shut-in window: its bounds and the
maximum differential. -/
def mkPeriod4 (w : List Row) : Period :=
  ⟨(w.headD row0).time, (w.getLastD row0).time, .num (qmaxList (pressureDiffs w)), .nan⟩

/-- The loop body of `check_pressure_difference` at window start `i`:
skip the window silently unless it spans exactly `closed_hours - 1`
wall-clock hours, then emit a period iff some hour's differential
exceeds the threshold. -/
def matchWindow4 (cfg : Config) (cr : List Row) (i : ℕ) : Option Period :=
  let w := windowAt cr cfg.closed_hours i
  if spanHours w = (cfg.closed_hours : ℤ) - 1 then
    if (pressureDiffs w).any (fun x => decide (cfg.pressure_diff_threshold < x)) then
      some (mkPeriod4 w)
    else none
  else none

/-- Accumulate the loop bodies in index order, mirroring the
`found_periods.append` pattern of all four Python check loops. -/
def collectPeriods (g : ℕ → Option Period) (n : ℕ) : List Period :=
  (List.range n).foldl
    (fun acc i => match g i with | some p => acc ++ [p] | none => acc) []

/-- Method 1, `check_pressure_up_flow_down` (process.py lines 60–88):
casing pressure up, production down, over `range(len - days_window)`
window starts. -/
def check_pressure_up_flow_down (cfg : Config) (rows : List Row) : Bool × List Period :=
  let dp := daily_pressure rows
  let dprod := daily_gas_production rows
  let found := collectPeriods (matchWindow1 cfg dp dprod) (dprod.length - cfg.days_window)
  (!found.isEmpty, found)

/-- Method 2, `check_stable_pressure_flow_down` (process.py lines 90–118):
stable casing pressure, production down. -/
def check_stable_pressure_flow_down (cfg : Config) (rows : List Row) : Bool × List Period :=
  let dp := daily_pressure rows
  let dprod := daily_gas_production rows
  let found := collectPeriods (matchWindow2 cfg dp dprod) (dprod.length - cfg.days_window)
  (!found.isEmpty, found)

/-- Method 3, `check_sawtooth_pattern` (process.py lines 120–148):
zigzag fluctuation of pressure and production, over
`range(len(daily_pressure) - zigzag_window)` window starts. -/
def check_sawtooth_pattern (cfg : Config) (rows : List Row) : Bool × List Period :=
  let dp := daily_pressure rows
  let dprod := daily_gas_production rows
  let found := collectPeriods (matchWindow3 cfg dp dprod) (dp.length - cfg.zigzag_window)
  (!found.isEmpty, found)

/-- Method 4, `check_pressure_difference` (process.py lines 150–170):
shut-in oil/casing differential over contiguous closed windows, guarded
by `len(closed_periods) >= closed_hours`. -/
def check_pressure_difference (cfg : Config) (rows : List Row) : Bool × List Period :=
  let cr := closedRows rows
  if cr.length ≥ cfg.closed_hours then
    let found := collectPeriods (matchWindow4 cfg cr) (cr.length - cfg.closed_hours)
    (!found.isEmpty, found)
  else (false, [])

/-- The per-method results assembled by `_run_all_checks`. -/
structure Results where
  method1 : Bool × List Period
  method2 : Bool × List Period
  method3 : Bool × List Period
  method4 : Bool × List Period
deriving DecidableEq

/-- `_run_all_checks`. -/
def run_all_checks (cfg : Config) (rows : List Row) : Results :=
  { method1 := check_pressure_up_flow_down cfg rows
    method2 := check_stable_pressure_flow_down cfg rows
    method3 := check_sawtooth_pattern cfg rows
    method4 := check_pressure_difference cfg rows }

/-- The four method results in order, as iterated by
`_determine_treatment_stage`. -/
def methodList (res : Results) : List (Bool × List Period) :=
  [res.method1, res.method2, res.method3, res.method4]

/-- `has_liquid_loading = any(...)` (process.py line 178). -/
def anyFired (res : Results) : Bool :=
  res.method1.1 || res.method2.1 || res.method3.1 || res.method4.1

/-- One method's candidate date: the end date of its *last* period,
offered only when `result` is true and `periods` is non-empty
(process.py line 187–189). -/
def methodLastEnd (m : Bool × List Period) : Option ℕ :=
  if m.1 && !m.2.isEmpty then (m.2.getLast?).map (fun p => p.end_date) else none

/-- One step of the `last_liquid_loading_date` accumulation
(process.py lines 190–191, with the `is None` initialisation). -/
def stepLastDate (acc : Option ℕ) (m : Bool × List Period) : Option ℕ :=
  match methodLastEnd m, acc with
  | some d, some c => if d > c then some d else some c
  | some d, none => some d
  | none, a => a

/-- `last_liquid_loading_date` (process.py lines 185–191). -/
def last_liquid_loading_date (res : Results) : Option ℕ :=
  (methodList res).foldl stepLastDate none

/-- `daily_gas_production[index <= date].iloc[-1]`: the last value whose
(midnight-stamped) index is on or before the given hour timestamp;
`none` models the `IndexError` that `.iloc[-1]` raises on an empty
selection. -/
def lookupProduction (daily : List (ℕ × PVal)) (d : ℕ) : Option PVal :=
  ((daily.filter (fun e => e.1 * 24 ≤ d)).getLast?).map (fun e => e.2)

/-- Float greater-or-equal. -/
def pge (a b : PVal) : Bool := ple b a

/-- The fixed threshold classification of `_determine_treatment_stage`
(process.py lines 204–213), applied to the production already divided
by 10⁴.  The labels are the source's verbatim stage strings
(column-carrying / transition / foam-assisted lift / plunger lift /
intermittent production). -/
def stageOf (p : PVal) : String :=
  if pge p (.num 1) then "支柱携带阶段"
  else if ple (.num (8/10)) p && plt p (.num 1) then "过渡阶段"
  else if ple (.num (1/2)) p && plt p (.num (8/10)) then "泡沫助排阶段"
  else if ple (.num (3/10)) p && plt p (.num (1/2)) then "柱塞气举阶段"
  else "间歇生产阶段"

/-- `_determine_treatment_stage` (process.py lines 172–213).  Returns
`none` when the production lookup raises `IndexError` (empty selection
under `.iloc[-1]`), the stage label otherwise.  The branch on
`last_liquid_loading_date` being `None` falls back to
`daily_gas_production.iloc[-1]`, mirroring lines 194–198. -/
def determine_treatment_stage (res : Results) (daily : List (ℕ × PVal)) : Option String :=
  if !anyFired res then some "正常生产阶段"
  else
    match (match last_liquid_loading_date res with
           | some d => lookupProduction daily d
           | none => (daily.getLast?).map (fun e => e.2)) with
    | none => none
    | some v => some (stageOf (pdiv v (.num 10000)))

/-- `analyze`: daily aggregation, the four checks, then staging. -/
def analyze (cfg : Config) (rows : List Row) : Results × Option String :=
  let res := run_all_checks cfg rows
  (res, determine_treatment_stage res (daily_gas_production rows))

/-- The spec's reference reading of the aggregator: group the open rows
by calendar day *as `groupby` would* — only days that actually contain
open rows, in order of appearance — take each day's last
`total_gas_flow`, and first-difference.  (`resample('D')`, by contrast,
also materialises the empty days in between.) -/
def dedupChain : List ℕ → List ℕ
  | [] => []
  | [d] => [d]
  | a :: b :: rest => if a = b then dedupChain (b :: rest) else a :: dedupChain (b :: rest)

/-- The distinct calendar days of a subframe, in order of appearance
(for time-sorted rows: the `groupby('D')` keys). -/
def distinctDays (rs : List Row) : List ℕ :=
  dedupChain (rs.map (fun r => dayOf r.time))

/-- Modelled from the spec (§4.1): the reference Daily Production
Aggregator — open rows grouped by their actual calendar days, last
cumulative reading per day, day-over-day first difference. -/
def referenceDailyProduction (rows : List Row) : List (ℕ × PVal) :=
  diffSeries ((distinctDays (openRows rows)).map
    (fun d => (d, lastTotalOn (openRows rows) d)))

/-- Whether a float scalar is finite (a "valid" series entry). -/
def isNum : PVal → Bool
  | .num _ => true
  | _ => false

/-- The number of valid (non-NaN) entries of a date-indexed series. -/
def countValid (l : List (ℕ × PVal)) : ℕ :=
  (l.filter (fun e => isNum e.2)).length

/-! ### Concrete inputs used to settle individual claims -/

/-- A two-day detector-1/2 window configuration (the checks are
parametric in the configuration; `days_window = 2` keeps the examples
small). -/
def cfgC1 : Config := { defaultConfig with days_window := 2 }

/-- Three open days: casing pressure 1, 10, 13; daily production
(by differencing the totals 100, 200, 250) NaN, 100, 50.  The window
starting at joined index 1 — that is, at `count - days_window` — rises
30 % in pressure and falls 50 % in flow. -/
def exC1 : List Row :=
  [⟨0, 0, 1, 100, 0⟩, ⟨24, 0, 10, 200, 0⟩, ⟨48, 0, 13, 250, 0⟩]

/-- Three open days with stable casing pressure 10, 10, 10.2 and the
same falling production, for detector 2. -/
def exC1b : List Row :=
  [⟨0, 0, 10, 100, 0⟩, ⟨24, 0, 10, 200, 0⟩, ⟨48, 0, 51/5, 250, 0⟩]

/-- A three-hour shut-in window configuration for the stage-classifier
examples. -/
def cfgC2 : Config := { defaultConfig with closed_hours := 3 }

/-- Four closed hours 0–3 with a 5 MPa oil/casing differential (so
detector 4 fires with end timestamp hour 2), followed by open rows on
days 1–3 only: every DailyProduction index is after the loading end
date, so the classifier's production lookup selects nothing. -/
def exC2 : List Row :=
  [⟨0, 8, 3, 0, 1⟩, ⟨1, 8, 3, 0, 1⟩, ⟨2, 8, 3, 0, 1⟩, ⟨3, 8, 3, 0, 1⟩,
   ⟨24, 0, 1, 100, 0⟩, ⟨48, 0, 1, 200, 0⟩, ⟨72, 0, 1, 300, 0⟩]

/-- Like `exC2` but with open rows at hours 10 and 34, so day 0 is a
DailyProduction index on or before the loading end date and the lookup
succeeds. -/
def exC2w : List Row :=
  [⟨0, 8, 3, 0, 1⟩, ⟨1, 8, 3, 0, 1⟩, ⟨2, 8, 3, 0, 1⟩, ⟨3, 8, 3, 0, 1⟩,
   ⟨10, 0, 1, 100, 0⟩, ⟨34, 0, 1, 200, 0⟩]

/-- Open rows on days 0 and 2 with a fully closed day 1 in between:
`resample('D')` materialises an empty NaN day that `groupby` would not. -/
def exC6 : List Row :=
  [⟨0, 1, 1, 100, 0⟩, ⟨24, 1, 1, 0, 1⟩, ⟨48, 1, 1, 300, 0⟩]

/-- Two consecutive open days (gap-free span). -/
def exC6w : List Row := [⟨0, 1, 1, 100, 0⟩, ⟨24, 1, 1, 250, 0⟩]

/-- Four open days whose casing pressure is 1, 0, 5, 5 (a zero daily
mean on day 1) while production falls 100 → 50 across days 1–2: the
two-day window starting at day 1 divides by the zero start pressure. -/
def exC10 : List Row :=
  [⟨0, 0, 1, 100, 0⟩, ⟨24, 0, 0, 200, 0⟩, ⟨48, 0, 5, 250, 0⟩, ⟨72, 0, 5, 250, 0⟩]

/-- Four open days whose first three daily casing pressures −5, 0, 5
have zero mean, with fluctuating production, for detector 3. -/
def exC10c : List Row :=
  [⟨0, 0, -5, 100, 0⟩, ⟨24, 0, 0, 200, 0⟩, ⟨48, 0, 5, 250, 0⟩, ⟨72, 0, 0, 250, 0⟩]

/-! ### Structural lemmas about the loops and series -/

theorem foldl_append_eq_filterMap (g : ℕ → Option Period) :
    ∀ (l : List ℕ) (acc : List Period),
      l.foldl (fun acc i => match g i with | some p => acc ++ [p] | none => acc) acc
        = acc ++ l.filterMap g
  | [], acc => by simp
  | a :: l, acc => by
      cases h : g a <;>
        simp [h, foldl_append_eq_filterMap g l, List.filterMap_cons]

theorem collectPeriods_eq (g : ℕ → Option Period) (n : ℕ) :
    collectPeriods g n = (List.range n).filterMap g := by
  simpa [collectPeriods] using foldl_append_eq_filterMap g (List.range n) []

theorem diffSeries_length (l : List (ℕ × PVal)) : (diffSeries l).length = l.length := by
  cases l with
  | nil => rfl
  | cons x xs => simp [diffSeries]

theorem daily_lengths (rows : List Row) :
    (daily_pressure rows).length = (daysSpan (openRows rows)).length ∧
    (daily_gas_production rows).length = (daysSpan (openRows rows)).length := by
  refine ⟨by simp [daily_pressure], ?_⟩
  simp [daily_gas_production, diffSeries_length, daily_total]

theorem check1_periods (cfg : Config) (rows : List Row) :
    (check_pressure_up_flow_down cfg rows).2
      = (List.range ((daily_gas_production rows).length - cfg.days_window)).filterMap
          (matchWindow1 cfg (daily_pressure rows) (daily_gas_production rows)) := by
  simp [check_pressure_up_flow_down, collectPeriods_eq]

theorem check2_periods (cfg : Config) (rows : List Row) :
    (check_stable_pressure_flow_down cfg rows).2
      = (List.range ((daily_gas_production rows).length - cfg.days_window)).filterMap
          (matchWindow2 cfg (daily_pressure rows) (daily_gas_production rows)) := by
  simp [check_stable_pressure_flow_down, collectPeriods_eq]

theorem check3_periods (cfg : Config) (rows : List Row) :
    (check_sawtooth_pattern cfg rows).2
      = (List.range ((daily_pressure rows).length - cfg.zigzag_window)).filterMap
          (matchWindow3 cfg (daily_pressure rows) (daily_gas_production rows)) := by
  simp [check_sawtooth_pattern, collectPeriods_eq]

theorem check4_periods (cfg : Config) (rows : List Row)
    (h : cfg.closed_hours ≤ (closedRows rows).length) :
    (check_pressure_difference cfg rows).2
      = (List.range ((closedRows rows).length - cfg.closed_hours)).filterMap
          (matchWindow4 cfg (closedRows rows)) := by
  simp [check_pressure_difference, collectPeriods_eq, h]

theorem check1_fst (cfg : Config) (rows : List Row) :
    (check_pressure_up_flow_down cfg rows).1
      = !(check_pressure_up_flow_down cfg rows).2.isEmpty := rfl

theorem check2_fst (cfg : Config) (rows : List Row) :
    (check_stable_pressure_flow_down cfg rows).1
      = !(check_stable_pressure_flow_down cfg rows).2.isEmpty := rfl

theorem check3_fst (cfg : Config) (rows : List Row) :
    (check_sawtooth_pattern cfg rows).1
      = !(check_sawtooth_pattern cfg rows).2.isEmpty := rfl

theorem check4_fst (cfg : Config) (rows : List Row) :
    (check_pressure_difference cfg rows).1
      = !(check_pressure_difference cfg rows).2.isEmpty := by
  by_cases h : (closedRows rows).length ≥ cfg.closed_hours <;>
    simp [check_pressure_difference, h]

/-! ### NaN propagation and out-of-range indexing -/

theorem pressure_change_nan_left (x : PVal) : pressure_change .nan x = .nan := by
  cases x <;> rfl

theorem pressure_change_nan_right (x : PVal) : pressure_change x .nan = .nan := by
  cases x <;> rfl

theorem plt_nan_right (x : PVal) : plt x .nan = false := by
  cases x <;> rfl

theorem plt_nan_left (x : PVal) : plt .nan x = false := by
  cases x <;> rfl

theorem getD_out {α : Type} {l : List α} {i : ℕ} (d : α) (h : l.length ≤ i) :
    l.getD i d = d := by
  rw [List.getD_eq_getElem?_getD, List.getElem?_eq_none h]; rfl

/-! ### Extraction lemmas for the loop bodies -/

theorem matchWindow1_some {cfg : Config} {dp dprod : List (ℕ × PVal)} {i : ℕ} {p : Period}
    (h : matchWindow1 cfg dp dprod i = some p) :
    i < dp.length ∧ i + cfg.days_window - 1 < dp.length ∧
    p.start_date = (dp.getD i (0, PVal.nan)).1 * 24 ∧
    p.end_date = (dp.getD (i + cfg.days_window - 1) (0, PVal.nan)).1 * 24 := by
  simp only [matchWindow1] at h
  split at h
  case isFalse => exact absurd h (by simp)
  case isTrue hc =>
    have hi : i < dp.length := by
      by_contra hx
      rw [getD_out (0, PVal.nan) (Nat.le_of_not_lt hx)] at hc
      simp only [pressure_change_nan_left, pgt, plt_nan_right, Bool.false_and] at hc
      exact Bool.false_ne_true hc
    have hj : i + cfg.days_window - 1 < dp.length := by
      by_contra hx
      rw [getD_out (0, PVal.nan) (Nat.le_of_not_lt hx)] at hc
      simp only [pressure_change_nan_right, pgt, plt_nan_right, Bool.false_and] at hc
      exact Bool.false_ne_true hc
    have hp := Option.some_inj.mp h
    subst hp
    exact ⟨hi, hj, rfl, rfl⟩

theorem matchWindow2_some {cfg : Config} {dp dprod : List (ℕ × PVal)} {i : ℕ} {p : Period}
    (h : matchWindow2 cfg dp dprod i = some p) :
    i < dp.length ∧ i + cfg.days_window - 1 < dp.length ∧
    p.start_date = (dp.getD i (0, PVal.nan)).1 * 24 ∧
    p.end_date = (dp.getD (i + cfg.days_window - 1) (0, PVal.nan)).1 * 24 := by
  simp only [matchWindow2] at h
  split at h
  case isFalse => exact absurd h (by simp)
  case isTrue hc =>
    have hi : i < dp.length := by
      by_contra hx
      rw [getD_out (0, PVal.nan) (Nat.le_of_not_lt hx)] at hc
      simp only [pressure_change_nan_left, pabs, plt_nan_left, Bool.false_and] at hc
      exact Bool.false_ne_true hc
    have hj : i + cfg.days_window - 1 < dp.length := by
      by_contra hx
      rw [getD_out (0, PVal.nan) (Nat.le_of_not_lt hx)] at hc
      simp only [pressure_change_nan_right, pabs, plt_nan_left, Bool.false_and] at hc
      exact Bool.false_ne_true hc
    have hp := Option.some_inj.mp h
    subst hp
    exact ⟨hi, hj, rfl, rfl⟩

theorem matchWindow3_some {cfg : Config} {dp dprod : List (ℕ × PVal)} {i : ℕ} {p : Period}
    (h : matchWindow3 cfg dp dprod i = some p) :
    p.start_date = (dp.getD i (0, PVal.nan)).1 * 24 ∧
    p.end_date = (dp.getD (i + cfg.zigzag_window - 1) (0, PVal.nan)).1 * 24 := by
  simp only [matchWindow3] at h
  split at h
  case isFalse => exact absurd h (by simp)
  case isTrue hc =>
    have hp := Option.some_inj.mp h
    subst hp
    exact ⟨rfl, rfl⟩

theorem matchWindow4_some {cfg : Config} {cr : List Row} {i : ℕ} {p : Period}
    (h : matchWindow4 cfg cr i = some p) :
    spanHours (windowAt cr cfg.closed_hours i) = (cfg.closed_hours : ℤ) - 1 ∧
    (pressureDiffs (windowAt cr cfg.closed_hours i)).any
      (fun x => decide (cfg.pressure_diff_threshold < x)) = true ∧
    p = mkPeriod4 (windowAt cr cfg.closed_hours i) := by
  simp only [matchWindow4] at h
  split at h
  case isFalse => exact absurd h (by simp)
  case isTrue h1 =>
    split at h
    case isFalse => exact absurd h (by simp)
    case isTrue h2 =>
      exact ⟨h1, h2, (Option.some_inj.mp h).symm⟩

/-! ### The day index is strictly increasing -/

theorem getD_map_add_range {d0 k i : ℕ} (h : i < k) :
    (((List.range k).map (fun j => d0 + j)).getD i 0) = d0 + i := by
  rw [List.getD_eq_getElem?_getD, List.getElem?_map, List.getElem?_range h]
  rfl

theorem daysSpan_getD_mono (rs : List Row) {i j : ℕ} (hij : i < j)
    (hj : j < (daysSpan rs).length) :
    (daysSpan rs).getD i 0 < (daysSpan rs).getD j 0 := by
  unfold daysSpan at hj ⊢
  cases h1 : rs.head? with
  | none => simp [h1] at hj
  | some a =>
    cases h2 : rs.getLast? with
    | none => simp [h1, h2] at hj
    | some b =>
      simp only [h1, h2, List.length_map, List.length_range] at hj ⊢
      rw [getD_map_add_range (lt_of_lt_of_le hij (Nat.le_of_lt hj)),
          getD_map_add_range hj]
      omega

theorem daysSpan_getD_le (rs : List Row) {i j : ℕ} (hij : i ≤ j)
    (hj : j < (daysSpan rs).length) :
    (daysSpan rs).getD i 0 ≤ (daysSpan rs).getD j 0 := by
  rcases Nat.lt_or_ge i j with h | h
  · exact Nat.le_of_lt (daysSpan_getD_mono rs h hj)
  · have : i = j := Nat.le_antisymm hij h
    subst this
    exact Nat.le_refl _

theorem daily_pressure_getD_fst (rows : List Row) {i : ℕ}
    (h : i < (daily_pressure rows).length) :
    ((daily_pressure rows).getD i (0, PVal.nan)).1
      = (daysSpan (openRows rows)).getD i 0 := by
  have h' : i < (daysSpan (openRows rows)).length := by
    simpa [daily_pressure] using h
  simp [daily_pressure, List.getD_eq_getElem?_getD, List.getElem?_map,
        List.getElem?_eq_getElem h']

/-! ### Pairwise ordering of emitted periods -/

theorem filterMap_range_pairwise {g : ℕ → Option Period} {R : Period → Period → Prop} {n : ℕ}
    (h : ∀ i j p q, i < j → j < n → g i = some p → g j = some q → R p q) :
    ((List.range n).filterMap g).Pairwise R := by
  rw [List.pairwise_filterMap, List.pairwise_iff_getElem]
  intro a b ha hb hab
  simp only [List.length_range] at ha hb
  simp only [List.getElem_range]
  intro p hp q hq
  exact h a b p q hab hb (Option.mem_def.1 hp) (Option.mem_def.1 hq)

theorem check1_starts_mono (cfg : Config) (rows : List Row) :
    (check_pressure_up_flow_down cfg rows).2.Pairwise
      (fun p q => p.start_date < q.start_date) := by
  rw [check1_periods]
  apply filterMap_range_pairwise
  intro i j p q hij _ hp hq
  obtain ⟨hi1, _, hps, _⟩ := matchWindow1_some hp
  obtain ⟨hj1, _, hqs, _⟩ := matchWindow1_some hq
  rw [hps, hqs, daily_pressure_getD_fst rows hi1, daily_pressure_getD_fst rows hj1]
  have := daysSpan_getD_mono (openRows rows) hij (by simpa [daily_pressure] using hj1)
  omega

theorem check2_starts_mono (cfg : Config) (rows : List Row) :
    (check_stable_pressure_flow_down cfg rows).2.Pairwise
      (fun p q => p.start_date < q.start_date) := by
  rw [check2_periods]
  apply filterMap_range_pairwise
  intro i j p q hij _ hp hq
  obtain ⟨hi1, _, hps, _⟩ := matchWindow2_some hp
  obtain ⟨hj1, _, hqs, _⟩ := matchWindow2_some hq
  rw [hps, hqs, daily_pressure_getD_fst rows hi1, daily_pressure_getD_fst rows hj1]
  have := daysSpan_getD_mono (openRows rows) hij (by simpa [daily_pressure] using hj1)
  omega

theorem check1_ends_mono (cfg : Config) (rows : List Row) :
    (check_pressure_up_flow_down cfg rows).2.Pairwise
      (fun p q => p.end_date ≤ q.end_date) := by
  rw [check1_periods]
  apply filterMap_range_pairwise
  intro i j p q hij _ hp hq
  obtain ⟨_, hi2, _, hpe⟩ := matchWindow1_some hp
  obtain ⟨_, hj2, _, hqe⟩ := matchWindow1_some hq
  rw [hpe, hqe, daily_pressure_getD_fst rows hi2, daily_pressure_getD_fst rows hj2]
  have := daysSpan_getD_le (openRows rows)
    (by omega : i + cfg.days_window - 1 ≤ j + cfg.days_window - 1)
    (by simpa [daily_pressure] using hj2)
  omega

theorem check2_ends_mono (cfg : Config) (rows : List Row) :
    (check_stable_pressure_flow_down cfg rows).2.Pairwise
      (fun p q => p.end_date ≤ q.end_date) := by
  rw [check2_periods]
  apply filterMap_range_pairwise
  intro i j p q hij _ hp hq
  obtain ⟨_, hi2, _, hpe⟩ := matchWindow2_some hp
  obtain ⟨_, hj2, _, hqe⟩ := matchWindow2_some hq
  rw [hpe, hqe, daily_pressure_getD_fst rows hi2, daily_pressure_getD_fst rows hj2]
  have := daysSpan_getD_le (openRows rows)
    (by omega : i + cfg.days_window - 1 ≤ j + cfg.days_window - 1)
    (by simpa [daily_pressure] using hj2)
  omega

theorem check3_ends_mono (cfg : Config) (rows : List Row) :
    (check_sawtooth_pattern cfg rows).2.Pairwise
      (fun p q => p.end_date ≤ q.end_date) := by
  rw [check3_periods]
  apply filterMap_range_pairwise
  intro i j p q hij hj hp hq
  obtain ⟨_, hpe⟩ := matchWindow3_some hp
  obtain ⟨_, hqe⟩ := matchWindow3_some hq
  have hj2 : j + cfg.zigzag_window - 1 < (daily_pressure rows).length := by omega
  have hi2 : i + cfg.zigzag_window - 1 < (daily_pressure rows).length := by omega
  rw [hpe, hqe, daily_pressure_getD_fst rows hi2, daily_pressure_getD_fst rows hj2]
  have := daysSpan_getD_le (openRows rows)
    (by omega : i + cfg.zigzag_window - 1 ≤ j + cfg.zigzag_window - 1)
    (by simpa [daily_pressure] using hj2)
  omega

/-! ### Shut-in windows over time-sorted rows -/

theorem windowAt_length {cr : List Row} {c i : ℕ} (h : i + c ≤ cr.length) :
    (windowAt cr c i).length = c := by
  simp [windowAt]
  omega

theorem windowAt_headD {cr : List Row} {c i : ℕ} (hc : 0 < c) :
    (windowAt cr c i).headD row0 = cr.getD i row0 := by
  rw [List.headD_eq_head?, List.head?_eq_getElem?, List.getD_eq_getElem?_getD, windowAt,
      List.getElem?_take_of_lt hc, List.getElem?_drop]
  simp

theorem windowAt_getLastD {cr : List Row} {c i : ℕ} (hc : 0 < c) (h : i + c ≤ cr.length) :
    (windowAt cr c i).getLastD row0 = cr.getD (i + c - 1) row0 := by
  rw [List.getLastD_eq_getLast?, List.getLast?_eq_getElem?, windowAt_length h,
      List.getD_eq_getElem?_getD, windowAt,
      List.getElem?_take_of_lt (by omega : c - 1 < c), List.getElem?_drop]
  congr 2
  omega

theorem sorted_getD_mono {cr : List Row}
    (hs : cr.Pairwise (fun a b => a.time < b.time))
    {i j : ℕ} (hij : i < j) (hj : j < cr.length) :
    (cr.getD i row0).time < (cr.getD j row0).time := by
  have hi : i < cr.length := Nat.lt_trans hij hj
  rw [List.getD_eq_getElem?_getD, List.getD_eq_getElem?_getD,
      List.getElem?_eq_getElem hi, List.getElem?_eq_getElem hj]
  exact List.pairwise_iff_getElem.1 hs i j hi hj hij

theorem closedRows_sorted {rows : List Row}
    (hs : rows.Pairwise (fun a b => a.time < b.time)) :
    (closedRows rows).Pairwise (fun a b => a.time < b.time) :=
  hs.filter _

theorem matchWindow4_zero {cfg : Config} {cr : List Row} {i : ℕ}
    (hc : cfg.closed_hours = 0) : matchWindow4 cfg cr i = none := by
  simp [matchWindow4, hc, windowAt, spanHours]

theorem check4_ends_mono (cfg : Config) (rows : List Row)
    (hs : rows.Pairwise (fun a b => a.time < b.time)) :
    (check_pressure_difference cfg rows).2.Pairwise
      (fun p q => p.end_date ≤ q.end_date) := by
  by_cases hguard : cfg.closed_hours ≤ (closedRows rows).length
  · rw [check4_periods cfg rows hguard]
    apply filterMap_range_pairwise
    intro i j p q hij hj hp hq
    by_cases hc : cfg.closed_hours = 0
    · rw [matchWindow4_zero hc] at hp
      exact absurd hp (by simp)
    · obtain ⟨_, _, hpeq⟩ := matchWindow4_some hp
      obtain ⟨_, _, hqeq⟩ := matchWindow4_some hq
      rw [hpeq, hqeq]
      show ((windowAt _ _ i).getLastD row0).time ≤ ((windowAt _ _ j).getLastD row0).time
      rw [windowAt_getLastD (by omega) (by omega),
          windowAt_getLastD (by omega) (by omega)]
      exact Nat.le_of_lt (sorted_getD_mono (closedRows_sorted hs) (by omega) (by omega))
  · simp [check_pressure_difference, hguard]

/-! ### The last reported period carries the latest end date -/

theorem pairwise_getLast_max {l : List Period}
    (h : l.Pairwise (fun p q => p.end_date ≤ q.end_date))
    {q : Period} (hq : l.getLast? = some q) :
    ∀ p ∈ l, p.end_date ≤ q.end_date := by
  induction l with
  | nil => simp at hq
  | cons x xs ih =>
    obtain ⟨hx, hxs⟩ := List.pairwise_cons.1 h
    cases xs with
    | nil =>
      intro p hp
      simp only [List.getLast?_singleton, Option.some_inj] at hq
      simp only [List.mem_singleton] at hp
      rw [hp, hq]
    | cons y ys =>
      have hq' : (y :: ys).getLast? = some q := by
        simpa [List.getLast?_cons_cons] using hq
      intro p hp
      rcases List.mem_cons.1 hp with rfl | hp'
      · exact hx q (List.mem_of_getLast?_eq_some hq')
      · exact ih hxs hq' p hp'

/-! ### The accumulated latest loading date is the maximum candidate -/

theorem foldl_step_spec (ms : List (Bool × List Period)) :
    ∀ (acc : Option ℕ) (d : ℕ), ms.foldl stepLastDate acc = some d →
      ((acc = some d ∨ ∃ m ∈ ms, methodLastEnd m = some d) ∧
       (∀ c, acc = some c → c ≤ d) ∧
       (∀ m ∈ ms, ∀ c, methodLastEnd m = some c → c ≤ d)) := by
  induction ms with
  | nil =>
    intro acc d h
    simp only [List.foldl_nil] at h
    refine ⟨Or.inl h, fun c hc => ?_, by simp⟩
    rw [h] at hc
    have := Option.some_inj.mp hc
    omega
  | cons m ms ih =>
    intro acc d h
    simp only [List.foldl_cons] at h
    obtain ⟨ih1, ih2, ih3⟩ := ih (stepLastDate acc m) d h
    have hstep : ∀ c, stepLastDate acc m = some c → c ≤ d := ih2
    rcases hm : methodLastEnd m with _ | dm
    · -- this method offers no candidate: the step leaves acc unchanged
      have hacc : stepLastDate acc m = acc := by simp [stepLastDate, hm]
      rw [hacc] at ih1 ih2
      refine ⟨?_, ih2, ?_⟩
      · rcases ih1 with h1 | ⟨m', hm', he⟩
        · exact Or.inl h1
        · exact Or.inr ⟨m', List.mem_cons_of_mem m hm', he⟩
      · intro m' hm' c hc
        rcases List.mem_cons.1 hm' with rfl | hm''
        · rw [hm] at hc; exact absurd hc (by simp)
        · exact ih3 m' hm'' c hc
    · rcases hacc : acc with _ | c0
      · have hs : stepLastDate acc m = some dm := by simp [stepLastDate, hm, hacc]
        rw [hs] at ih1 ih2
        have hdm : dm ≤ d := ih2 dm rfl
        refine ⟨?_, by simp [hacc], ?_⟩
        · rcases ih1 with h1 | ⟨m', hm', he⟩
          · exact Or.inr ⟨m, List.mem_cons_self m ms, by rw [hm, ← Option.some_inj.mp h1]⟩
          · exact Or.inr ⟨m', List.mem_cons_of_mem m hm', he⟩
        · intro m' hm' c hc
          rcases List.mem_cons.1 hm' with rfl | hm''
          · rw [hm] at hc; exact Option.some_inj.mp hc ▸ hdm
          · exact ih3 m' hm'' c hc
      · have hs : stepLastDate acc m = some (if dm > c0 then dm else c0) := by
          simp only [stepLastDate, hm, hacc]
          split <;> rfl
        rw [hs] at ih1 ih2
        have hmax : (if dm > c0 then dm else c0) ≤ d := ih2 _ rfl
        have hdm : dm ≤ d := by split at hmax <;> omega
        have hc0 : c0 ≤ d := by split at hmax <;> omega
        refine ⟨?_, ?_, ?_⟩
        · rcases ih1 with h1 | ⟨m', hm', he⟩
          · have h1' := Option.some_inj.mp h1
            split at h1'
            · exact Or.inr ⟨m, List.mem_cons_self m ms, by rw [hm, h1']⟩
            · exact Or.inl (by rw [h1'])
          · exact Or.inr ⟨m', List.mem_cons_of_mem m hm', he⟩
        · intro c hc
          have := Option.some_inj.mp hc
          omega
        · intro m' hm' c hc
          rcases List.mem_cons.1 hm' with rfl | hm''
          · rw [hm] at hc; exact Option.some_inj.mp hc ▸ hdm
          · exact ih3 m' hm'' c hc

theorem foldl_step_none (ms : List (Bool × List Period)) :
    ∀ (acc : Option ℕ), ms.foldl stepLastDate acc = none →
      acc = none ∧ ∀ m ∈ ms, methodLastEnd m = none := by
  induction ms with
  | nil => intro acc h; simpa using h
  | cons m ms ih =>
    intro acc h
    simp only [List.foldl_cons] at h
    obtain ⟨hstep, htail⟩ := ih (stepLastDate acc m) h
    rcases hm : methodLastEnd m with _ | dm
    · have : stepLastDate acc m = acc := by simp [stepLastDate, hm]
      rw [this] at hstep
      exact ⟨hstep, fun m' hm' => by
        rcases List.mem_cons.1 hm' with rfl | h' ; exact hm ; exact htail m' h'⟩
    · exfalso
      rcases hacc : acc with _ | c0
      · rw [show stepLastDate acc m = some dm by simp [stepLastDate, hm, hacc]] at hstep
        exact Option.noConfusion hstep
      · have : stepLastDate acc m = some (if dm > c0 then dm else c0) := by
          simp only [stepLastDate, hm, hacc]
          split <;> rfl
        rw [this] at hstep
        exact Option.noConfusion hstep

/-! ### Detection flag versus periods -/

theorem detected_ne_nil {b : Bool} {l : List Period}
    (hfst : b = !l.isEmpty) (h : b = true) : l ≠ [] := by
  rw [h] at hfst
  intro hn
  rw [hn] at hfst
  simp at hfst

theorem methodLastEnd_ne_none {m : Bool × List Period} (h1 : m.1 = true)
    (h2 : m.2 ≠ []) : methodLastEnd m ≠ none := by
  have hlen : 0 < m.2.length := List.length_pos.2 h2
  have hemp : m.2.isEmpty = false := by
    cases hm2 : m.2 with
    | nil => exact absurd hm2 h2
    | cons a as => rfl
  unfold methodLastEnd
  rw [h1, hemp]
  simp only [Bool.not_false, Bool.and_self, if_true]
  rw [List.getLast?_eq_getElem?, List.getElem?_eq_getElem (by omega)]
  simp

theorem methodLastEnd_some {m : Bool × List Period} {dm : ℕ}
    (h : methodLastEnd m = some dm) :
    m.1 = true ∧ ∃ q, m.2.getLast? = some q ∧ q.end_date = dm := by
  unfold methodLastEnd at h
  split at h
  case isFalse => exact absurd h (by simp)
  case isTrue hb =>
    obtain ⟨hb1, -⟩ : m.1 = true ∧ (!m.2.isEmpty) = true := by simpa using hb
    cases hq : m.2.getLast? with
    | none => rw [hq] at h; exact absurd h (by simp)
    | some q =>
      rw [hq] at h
      simp only [Option.map_some'] at h
      exact ⟨hb1, q, rfl, Option.some_inj.mp h⟩

theorem last_date_isSome (cfg : Config) (rows : List Row)
    (hf : anyFired (run_all_checks cfg rows) = true) :
    ∃ d, last_liquid_loading_date (run_all_checks cfg rows) = some d := by
  cases hld : last_liquid_loading_date (run_all_checks cfg rows) with
  | some d => exact ⟨d, rfl⟩
  | none =>
    exfalso
    obtain ⟨-, hall⟩ := foldl_step_none _ _ hld
    have hf' : (((run_all_checks cfg rows).method1.1 = true ∨
        (run_all_checks cfg rows).method2.1 = true) ∨
        (run_all_checks cfg rows).method3.1 = true) ∨
        (run_all_checks cfg rows).method4.1 = true := by
      simpa [anyFired] using hf
    rcases hf' with ((h1 | h2) | h3) | h4
    · exact methodLastEnd_ne_none h1
        (detected_ne_nil (check1_fst cfg rows) h1)
        (hall _ (by simp [methodList, run_all_checks]))
    · exact methodLastEnd_ne_none h2
        (detected_ne_nil (check2_fst cfg rows) h2)
        (hall _ (by simp [methodList, run_all_checks]))
    · exact methodLastEnd_ne_none h3
        (detected_ne_nil (check3_fst cfg rows) h3)
        (hall _ (by simp [methodList, run_all_checks]))
    · exact methodLastEnd_ne_none h4
        (detected_ne_nil (check4_fst cfg rows) h4)
        (hall _ (by simp [methodList, run_all_checks]))

theorem determine_fired (res : Results) (daily : List (ℕ × PVal))
    (hf : anyFired res = true) {d : ℕ}
    (hd : last_liquid_loading_date res = some d) :
    determine_treatment_stage res daily
      = ((daily.filter (fun e => e.1 * 24 ≤ d)).getLast?).map
          (fun e => stageOf (pdiv e.2 (.num 10000))) := by
  unfold determine_treatment_stage
  rw [hf, hd]
  simp only [Bool.not_true, Bool.false_eq_true, if_false]
  unfold lookupProduction
  cases hq : (daily.filter (fun e => e.1 * 24 ≤ d)).getLast? <;> simp [hq]

/-! ### Generic list facts -/

theorem exists_getLast {α : Type} {l : List α} (h : l ≠ []) :
    ∃ q, l.getLast? = some q := by
  have hlen : 0 < l.length := List.length_pos.2 h
  rw [List.getLast?_eq_getElem?]
  exact ⟨l[l.length - 1], by rw [List.getElem?_eq_getElem (by omega)]⟩

theorem pairwise_getLast_rel {α : Type} {R : α → α → Prop} (hrefl : ∀ x, R x x)
    {l : List α} (h : l.Pairwise R) {q : α} (hq : l.getLast? = some q) :
    ∀ p ∈ l, R p q := by
  induction l with
  | nil => simp at hq
  | cons x xs ih =>
    obtain ⟨hx, hxs⟩ := List.pairwise_cons.1 h
    cases xs with
    | nil =>
      intro p hp
      simp only [List.getLast?_singleton, Option.some_inj] at hq
      simp only [List.mem_singleton] at hp
      rw [hp, ← hq]
      exact hrefl x
    | cons y ys =>
      have hq' : (y :: ys).getLast? = some q := by
        simpa [List.getLast?_cons_cons] using hq
      intro p hp
      rcases List.mem_cons.1 hp with rfl | hp'
      · exact hx q (List.mem_of_getLast?_eq_some hq')
      · exact ih hxs hq' p hp'

/-! ### The aggregator versus the groupby reference (claim C6) -/

theorem mem_dedupChain : ∀ {l : List ℕ} {x : ℕ}, x ∈ dedupChain l ↔ x ∈ l
  | [], x => by simp [dedupChain]
  | [d], x => by simp [dedupChain]
  | a :: b :: rest, x => by
    by_cases hab : a = b
    · rw [show dedupChain (a :: b :: rest) = dedupChain (b :: rest) by
        simp [dedupChain, hab]]
      rw [@mem_dedupChain (b :: rest) x]
      subst hab
      simp [List.mem_cons]
    · rw [show dedupChain (a :: b :: rest) = a :: dedupChain (b :: rest) by
        simp [dedupChain, hab]]
      simp [List.mem_cons, @mem_dedupChain (b :: rest) x]

theorem dedupChain_pairwise_lt : ∀ {l : List ℕ}, l.Pairwise (· ≤ ·) →
    (dedupChain l).Pairwise (· < ·)
  | [], _ => by simp [dedupChain]
  | [d], _ => by simp [dedupChain]
  | a :: b :: rest, h => by
    obtain ⟨ha, hbr⟩ := List.pairwise_cons.1 h
    by_cases hab : a = b
    · rw [show dedupChain (a :: b :: rest) = dedupChain (b :: rest) by
        simp [dedupChain, hab]]
      exact dedupChain_pairwise_lt hbr
    · rw [show dedupChain (a :: b :: rest) = a :: dedupChain (b :: rest) by
        simp [dedupChain, hab]]
      refine List.pairwise_cons.2 ⟨?_, dedupChain_pairwise_lt hbr⟩
      intro x hx
      have hxmem : x ∈ b :: rest := mem_dedupChain.1 hx
      have hax : a ≤ x := ha x hxmem
      rcases List.mem_cons.1 hxmem with rfl | hxr
      · exact lt_of_le_of_ne hax hab
      · have hbx : b ≤ x := (List.rel_of_pairwise_cons hbr) hxr
        have hab' : a < b := lt_of_le_of_ne (ha b (List.mem_cons_self b rest)) hab
        omega

theorem daysSpan_pairwise_lt (rs : List Row) : (daysSpan rs).Pairwise (· < ·) := by
  unfold daysSpan
  cases rs.head? with
  | none => simp
  | some a =>
    cases rs.getLast? with
    | none => simp
    | some b =>
      refine List.pairwise_map.2 ?_
      exact (List.pairwise_lt_range _).imp (fun h => by omega)

theorem mem_daysSpan {rs : List Row} {a b : Row} (hh : rs.head? = some a)
    (hl : rs.getLast? = some b) {d : ℕ} :
    d ∈ daysSpan rs ↔ dayOf a.time ≤ d ∧ d ≤ dayOf b.time := by
  unfold daysSpan
  rw [hh, hl]
  simp only [List.mem_map, List.mem_range]
  constructor
  · rintro ⟨k, hk, rfl⟩
    omega
  · rintro ⟨h1, h2⟩
    exact ⟨d - dayOf a.time, by omega, by omega⟩

theorem sorted_head_le {rs : List Row}
    (hs : rs.Pairwise (fun x y => x.time < y.time))
    {a : Row} (hh : rs.head? = some a) : ∀ r ∈ rs, a.time ≤ r.time := by
  cases rs with
  | nil => simp at hh
  | cons x xs =>
    obtain rfl : x = a := Option.some_inj.mp hh
    intro r hr
    rcases List.mem_cons.1 hr with rfl | hr'
    · exact Nat.le_refl _
    · exact Nat.le_of_lt ((List.rel_of_pairwise_cons hs) hr')

theorem sorted_le_getLast {rs : List Row}
    (hs : rs.Pairwise (fun x y => x.time < y.time))
    {b : Row} (hl : rs.getLast? = some b) : ∀ r ∈ rs, r.time ≤ b.time :=
  @pairwise_getLast_rel Row (fun x y => x.time ≤ y.time) (fun _ => Nat.le_refl _)
    rs (hs.imp (fun h => Nat.le_of_lt h)) b hl

theorem daysSpan_ne_nil {rs : List Row}
    (hs : rs.Pairwise (fun x y => x.time < y.time)) (hne : rs ≠ []) :
    daysSpan rs ≠ [] := by
  obtain ⟨a, ha⟩ : ∃ a, rs.head? = some a := by
    cases rs with
    | nil => exact absurd rfl hne
    | cons x xs => exact ⟨x, rfl⟩
  obtain ⟨b, hb⟩ := exists_getLast hne
  have hab : a.time ≤ b.time :=
    sorted_head_le hs ha b (List.mem_of_getLast?_eq_some hb)
  unfold daysSpan
  rw [ha, hb]
  intro hcon
  have := congrArg List.length hcon
  simp only [List.length_map, List.length_range, List.length_nil] at this
  have : dayOf a.time ≤ dayOf b.time := Nat.div_le_div_right hab
  omega

theorem distinctDays_eq_daysSpan {rows : List Row}
    (hs : rows.Pairwise (fun x y => x.time < y.time))
    (hne : openRows rows ≠ [])
    (hcov : ∀ d ∈ daysSpan (openRows rows), ∃ r ∈ openRows rows, dayOf r.time = d) :
    distinctDays (openRows rows) = daysSpan (openRows rows) := by
  have hos : (openRows rows).Pairwise (fun x y => x.time < y.time) := hs.filter _
  obtain ⟨a, ha⟩ : ∃ a, (openRows rows).head? = some a := by
    cases ho : openRows rows with
    | nil => exact absurd ho hne
    | cons x xs => exact ⟨x, rfl⟩
  obtain ⟨b, hb⟩ := exists_getLast hne
  have hsorted1 : (distinctDays (openRows rows)).Pairwise (· < ·) := by
    apply dedupChain_pairwise_lt
    exact List.pairwise_map.2 (hos.imp (fun h => Nat.div_le_div_right (Nat.le_of_lt h)))
  have hsorted2 : (daysSpan (openRows rows)).Pairwise (· < ·) :=
    daysSpan_pairwise_lt (openRows rows)
  have hmem : ∀ d, d ∈ distinctDays (openRows rows) ↔ d ∈ daysSpan (openRows rows) := by
    intro d
    unfold distinctDays
    rw [mem_dedupChain, List.mem_map]
    constructor
    · rintro ⟨r, hr, rfl⟩
      rw [mem_daysSpan ha hb]
      exact ⟨Nat.div_le_div_right (sorted_head_le hos ha r hr),
             Nat.div_le_div_right (sorted_le_getLast hos hb r hr)⟩
    · intro hd
      obtain ⟨r, hr, hrd⟩ := hcov d hd
      exact ⟨r, hr, hrd⟩
  haveI : IsAntisymm ℕ (· < ·) :=
    ⟨fun x y h h' => absurd h' (lt_asymm h)⟩
  exact List.eq_of_perm_of_sorted
    ((List.perm_ext_iff_of_nodup
        (hsorted1.imp (fun h => Nat.ne_of_lt h))
        (hsorted2.imp (fun h => Nat.ne_of_lt h))).2 hmem)
    hsorted1 hsorted2

theorem daily_total_values {rows : List Row}
    (hcov : ∀ d ∈ daysSpan (openRows rows), ∃ r ∈ openRows rows, dayOf r.time = d) :
    ∀ e ∈ daily_total rows, isNum e.2 = true := by
  intro e he
  simp only [daily_total, List.mem_map] at he
  obtain ⟨d, hd, rfl⟩ := he
  obtain ⟨r, hr, hrd⟩ := hcov d hd
  have hmem : r ∈ rowsOnDay (openRows rows) d :=
    List.mem_filter.2 ⟨hr, by simp [hrd]⟩
  obtain ⟨q, hq⟩ := exists_getLast (List.ne_nil_of_mem hmem)
  simp [lastTotalOn, hq, isNum]

theorem isNum_psub {x y : PVal} (hx : isNum x = true) (hy : isNum y = true) :
    isNum (psub x y) = true := by
  cases x <;> cases y <;> simp [isNum, psub] at hx hy ⊢

theorem countValid_diffSeries {l : List (ℕ × PVal)}
    (h : ∀ e ∈ l, isNum e.2 = true) :
    countValid (diffSeries l) = l.length - 1 := by
  cases l with
  | nil => rfl
  | cons x xs =>
    unfold diffSeries countValid
    rw [List.filter_cons_of_neg (by simp [isNum])]
    rw [List.filter_eq_self.2 ?_]
    · simp only [List.length_map, List.length_zip, List.length_cons]
      omega
    · intro e he
      simp only [List.mem_map] at he
      obtain ⟨p, hp, rfl⟩ := he
      obtain ⟨hp1, hp2⟩ := List.of_mem_zip hp
      exact isNum_psub (h _ (List.mem_cons_of_mem x hp1)) (h _ hp2)

theorem daily_gas_head {rows : List Row}
    (hne : daysSpan (openRows rows) ≠ []) :
    (daily_gas_production rows).head?.map (fun e => e.2) = some PVal.nan := by
  unfold daily_gas_production daily_total
  cases hsp : daysSpan (openRows rows) with
  | nil => exact absurd hsp hne
  | cons d ds => simp [diffSeries]

/-! ### Claim C2 machinery: all period end dates bound the selected date -/

theorem ends_le_of_bound {m : Bool × List Period} {d : ℕ}
    (hfst : m.1 = !m.2.isEmpty)
    (hmono : m.2.Pairwise (fun p q => p.end_date ≤ q.end_date))
    (hbound : ∀ c, methodLastEnd m = some c → c ≤ d) :
    ∀ p ∈ m.2, p.end_date ≤ d := by
  intro p hp
  have hne : m.2 ≠ [] := List.ne_nil_of_mem hp
  obtain ⟨q, hq⟩ := exists_getLast hne
  have h1 : m.1 = true := by
    rw [hfst]
    cases hm2 : m.2 with
    | nil => exact absurd hm2 hne
    | cons u us => rfl
  have hemp : m.2.isEmpty = false := by
    cases hm2 : m.2 with
    | nil => exact absurd hm2 hne
    | cons u us => rfl
  have hme : methodLastEnd m = some q.end_date := by
    unfold methodLastEnd
    rw [h1, hemp, hq]
    rfl
  exact le_trans (pairwise_getLast_max hmono hq p hp) (hbound _ hme)

theorem runChecks_fst_mono (cfg : Config) (rows : List Row)
    (hs : rows.Pairwise (fun a b => a.time < b.time)) :
    ∀ m ∈ methodList (run_all_checks cfg rows),
      m.1 = !m.2.isEmpty ∧ m.2.Pairwise (fun p q => p.end_date ≤ q.end_date) := by
  intro m hm
  simp only [methodList, run_all_checks, List.mem_cons, List.not_mem_nil, or_false] at hm
  rcases hm with rfl | rfl | rfl | rfl
  · exact ⟨check1_fst cfg rows, check1_ends_mono cfg rows⟩
  · exact ⟨check2_fst cfg rows, check2_ends_mono cfg rows⟩
  · exact ⟨check3_fst cfg rows, check3_ends_mono cfg rows⟩
  · exact ⟨check4_fst cfg rows, check4_ends_mono cfg rows hs⟩

/-! ### Concrete evaluations of the examples -/

theorem evalC1_prod :
    daily_gas_production exC1 = [(0, .nan), (1, .num 100), (2, .num 50)] := by
  show diffSeries (daily_total exC1) = _
  rw [show daily_total exC1 = [(0, .num 100), (1, .num 200), (2, .num 250)] from rfl]
  norm_num [diffSeries, psub]

theorem evalC1_dp :
    daily_pressure exC1 = [(0, .num 1), (1, .num 10), (2, .num 13)] := by
  show (daysSpan (openRows exC1)).map _ = _
  rw [show daysSpan (openRows exC1) = [0, 1, 2] from rfl]
  norm_num [meanCasingOn, rowsOnDay, openRows, exC1, dayOf]

theorem evalC1_m1 :
    matchWindow1 cfgC1 (daily_pressure exC1) (daily_gas_production exC1) 1
      = some ⟨24, 48, .num 30, .num (-50)⟩ := by
  rw [evalC1_dp, evalC1_prod]
  norm_num [matchWindow1, pressure_change, flow_change, psub, pdiv, pmul, plt, pgt,
    cfgC1, defaultConfig]

theorem evalC1_m0 :
    matchWindow1 cfgC1 (daily_pressure exC1) (daily_gas_production exC1) 0 = none := by
  rw [evalC1_dp, evalC1_prod]
  norm_num [matchWindow1, pressure_change, flow_change, psub, pdiv, pmul, plt, pgt,
    cfgC1, defaultConfig]
  simp

theorem evalC1_check : check_pressure_up_flow_down cfgC1 exC1 = (false, []) := by
  simp only [check_pressure_up_flow_down]
  rw [show (daily_gas_production exC1).length - cfgC1.days_window = 1 from rfl]
  simp only [collectPeriods]
  rw [show List.range 1 = [0] from rfl]
  simp [evalC1_m0]

theorem evalC1b_prod :
    daily_gas_production exC1b = [(0, .nan), (1, .num 100), (2, .num 50)] := by
  show diffSeries (daily_total exC1b) = _
  rw [show daily_total exC1b = [(0, .num 100), (1, .num 200), (2, .num 250)] from rfl]
  norm_num [diffSeries, psub]

theorem evalC1b_dp :
    daily_pressure exC1b = [(0, .num 10), (1, .num 10), (2, .num (51/5))] := by
  show (daysSpan (openRows exC1b)).map _ = _
  rw [show daysSpan (openRows exC1b) = [0, 1, 2] from rfl]
  norm_num [meanCasingOn, rowsOnDay, openRows, exC1b, dayOf]

theorem evalC1b_m1 :
    matchWindow2 cfgC1 (daily_pressure exC1b) (daily_gas_production exC1b) 1
      = some ⟨24, 48, .num 2, .num (-50)⟩ := by
  rw [evalC1b_dp, evalC1b_prod]
  norm_num [matchWindow2, pressure_change, flow_change, pabs, psub, pdiv, pmul, plt, pgt,
    cfgC1, defaultConfig]

theorem evalC1b_m0 :
    matchWindow2 cfgC1 (daily_pressure exC1b) (daily_gas_production exC1b) 0 = none := by
  rw [evalC1b_dp, evalC1b_prod]
  norm_num [matchWindow2, pressure_change, flow_change, pabs, psub, pdiv, pmul, plt, pgt,
    cfgC1, defaultConfig]
  simp

theorem evalC1b_check : check_stable_pressure_flow_down cfgC1 exC1b = (false, []) := by
  simp only [check_stable_pressure_flow_down]
  rw [show (daily_gas_production exC1b).length - cfgC1.days_window = 1 from rfl]
  simp only [collectPeriods]
  rw [show List.range 1 = [0] from rfl]
  simp [evalC1b_m0]

theorem evalC10_prod :
    daily_gas_production exC10 = [(0, .nan), (1, .num 100), (2, .num 50), (3, .num 0)] := by
  show diffSeries (daily_total exC10) = _
  rw [show daily_total exC10
      = [(0, .num 100), (1, .num 200), (2, .num 250), (3, .num 250)] from rfl]
  norm_num [diffSeries, psub]

theorem evalC10_dp :
    daily_pressure exC10 = [(0, .num 1), (1, .num 0), (2, .num 5), (3, .num 5)] := by
  show (daysSpan (openRows exC10)).map _ = _
  rw [show daysSpan (openRows exC10) = [0, 1, 2, 3] from rfl]
  norm_num [meanCasingOn, rowsOnDay, openRows, exC10, dayOf]

theorem evalC10_m0 :
    matchWindow1 cfgC1 (daily_pressure exC10) (daily_gas_production exC10) 0 = none := by
  rw [evalC10_dp, evalC10_prod]
  norm_num [matchWindow1, pressure_change, flow_change, psub, pdiv, pmul, plt, pgt,
    cfgC1, defaultConfig]

theorem evalC10_m1 :
    matchWindow1 cfgC1 (daily_pressure exC10) (daily_gas_production exC10) 1
      = some ⟨24, 48, .pinf, .num (-50)⟩ := by
  rw [evalC10_dp, evalC10_prod]
  norm_num [matchWindow1, pressure_change, flow_change, psub, pdiv, pmul, plt, pgt,
    cfgC1, defaultConfig]

theorem evalC10_check1 :
    check_pressure_up_flow_down cfgC1 exC10 = (true, [⟨24, 48, .pinf, .num (-50)⟩]) := by
  simp only [check_pressure_up_flow_down]
  rw [show (daily_gas_production exC10).length - cfgC1.days_window = 2 from rfl]
  simp only [collectPeriods]
  rw [show List.range 2 = [0, 1] from rfl]
  simp [evalC10_m0, evalC10_m1]

theorem evalC10_m0b :
    matchWindow2 cfgC1 (daily_pressure exC10) (daily_gas_production exC10) 0 = none := by
  rw [evalC10_dp, evalC10_prod]
  norm_num [matchWindow2, pressure_change, flow_change, pabs, psub, pdiv, pmul, plt, pgt,
    cfgC1, defaultConfig]

theorem evalC10_m1b :
    matchWindow2 cfgC1 (daily_pressure exC10) (daily_gas_production exC10) 1 = none := by
  rw [evalC10_dp, evalC10_prod]
  norm_num [matchWindow2, pressure_change, flow_change, pabs, psub, pdiv, pmul, plt, pgt,
    cfgC1, defaultConfig]

theorem evalC10_check2 :
    check_stable_pressure_flow_down cfgC1 exC10 = (false, []) := by
  simp only [check_stable_pressure_flow_down]
  rw [show (daily_gas_production exC10).length - cfgC1.days_window = 2 from rfl]
  simp only [collectPeriods]
  rw [show List.range 2 = [0, 1] from rfl]
  simp [evalC10_m0b, evalC10_m1b]

theorem evalC10c_prod :
    daily_gas_production exC10c = [(0, .nan), (1, .num 100), (2, .num 50), (3, .num 0)] := by
  show diffSeries (daily_total exC10c) = _
  rw [show daily_total exC10c
      = [(0, .num 100), (1, .num 200), (2, .num 250), (3, .num 250)] from rfl]
  norm_num [diffSeries, psub]

theorem evalC10c_dp :
    daily_pressure exC10c = [(0, .num (-5)), (1, .num 0), (2, .num 5), (3, .num 0)] := by
  show (daysSpan (openRows exC10c)).map _ = _
  rw [show daysSpan (openRows exC10c) = [0, 1, 2, 3] from rfl]
  norm_num [meanCasingOn, rowsOnDay, openRows, exC10c, dayOf]

theorem evalC10c_pmax : pmaxL [PVal.num (-5), PVal.num 0, PVal.num 5] = .num 5 := by
  unfold pmaxL
  rw [show numsOf [PVal.num (-5), PVal.num 0, PVal.num 5] = [-5, 0, 5] from rfl]
  norm_num [qmaxList, max_def]

theorem evalC10c_pmin : pminL [PVal.num (-5), PVal.num 0, PVal.num 5] = .num (-5) := by
  unfold pminL
  rw [show numsOf [PVal.num (-5), PVal.num 0, PVal.num 5] = [-5, 0, 5] from rfl]
  norm_num [qminList, min_def]

theorem evalC10c_pmean : pmeanL [PVal.num (-5), PVal.num 0, PVal.num 5] = .num 0 := by
  unfold pmeanL
  rw [show numsOf [PVal.num (-5), PVal.num 0, PVal.num 5] = [-5, 0, 5] from rfl]
  norm_num

theorem evalC10c_fmax : pmaxL [PVal.nan, PVal.num 100, PVal.num 50] = .num 100 := by
  unfold pmaxL
  rw [show numsOf [PVal.nan, PVal.num 100, PVal.num 50] = [100, 50] from rfl]
  norm_num [qmaxList, max_def]

theorem evalC10c_fmin : pminL [PVal.nan, PVal.num 100, PVal.num 50] = .num 50 := by
  unfold pminL
  rw [show numsOf [PVal.nan, PVal.num 100, PVal.num 50] = [100, 50] from rfl]
  norm_num [qminList, min_def]

theorem evalC10c_fmean : pmeanL [PVal.nan, PVal.num 100, PVal.num 50] = .num 75 := by
  unfold pmeanL
  rw [show numsOf [PVal.nan, PVal.num 100, PVal.num 50] = [100, 50] from rfl]
  norm_num

theorem evalC10c_pf :
    pressure_fluctuation [PVal.num (-5), PVal.num 0, PVal.num 5] = .pinf := by
  unfold pressure_fluctuation
  rw [evalC10c_pmax, evalC10c_pmin, evalC10c_pmean]
  norm_num [psub, pdiv, pmul]

theorem evalC10c_ff :
    flow_fluctuation [PVal.nan, PVal.num 100, PVal.num 50] = .num (200/3) := by
  unfold flow_fluctuation
  rw [evalC10c_fmax, evalC10c_fmin, evalC10c_fmean]
  norm_num [psub, pdiv, pmul]

theorem evalC10c_m0 :
    matchWindow3 defaultConfig (daily_pressure exC10c) (daily_gas_production exC10c) 0
      = some ⟨0, 48, .pinf, .num (200/3)⟩ := by
  rw [evalC10c_dp, evalC10c_prod]
  simp only [matchWindow3, defaultConfig]
  rw [show (([((0:ℕ), PVal.num (-5)), (1, PVal.num 0), (2, PVal.num 5), (3, PVal.num 0)].drop 0).take 3).map
        (fun e => e.2) = [PVal.num (-5), PVal.num 0, PVal.num 5] from rfl]
  rw [show (([((0:ℕ), PVal.nan), (1, PVal.num 100), (2, PVal.num 50), (3, PVal.num 0)].drop 0).take 3).map
        (fun e => e.2) = [PVal.nan, PVal.num 100, PVal.num 50] from rfl]
  rw [evalC10c_pf, evalC10c_ff]
  norm_num [pgt, plt]

theorem evalC10c_check3 :
    check_sawtooth_pattern defaultConfig exC10c
      = (true, [⟨0, 48, .pinf, .num (200/3)⟩]) := by
  simp only [check_sawtooth_pattern]
  rw [show (daily_pressure exC10c).length - defaultConfig.zigzag_window = 1 from rfl]
  simp only [collectPeriods]
  rw [show List.range 1 = [0] from rfl]
  simp [evalC10c_m0]

theorem evalC2_m4 : matchWindow4 cfgC2 (closedRows exC2) 0 = some ⟨0, 2, .num 5, .nan⟩ := by
  norm_num [matchWindow4, windowAt, closedRows, exC2, spanHours, cfgC2, defaultConfig,
    pressureDiffs, mkPeriod4, qmaxList, row0]

theorem evalC2_check4 :
    check_pressure_difference cfgC2 exC2 = (true, [⟨0, 2, .num 5, .nan⟩]) := by
  simp only [check_pressure_difference]
  rw [if_pos (by norm_num [closedRows, exC2, cfgC2, defaultConfig])]
  simp only [collectPeriods]
  rw [show (closedRows exC2).length - cfgC2.closed_hours = 1 from rfl]
  rw [show List.range 1 = [0] from rfl]
  simp [evalC2_m4]

theorem evalC2_run : run_all_checks cfgC2 exC2
    = ⟨(false, []), (false, []), (false, []), (true, [⟨0, 2, .num 5, .nan⟩])⟩ := by
  simp only [run_all_checks, evalC2_check4]
  rfl

theorem evalC2w_m4 : matchWindow4 cfgC2 (closedRows exC2w) 0 = some ⟨0, 2, .num 5, .nan⟩ := by
  norm_num [matchWindow4, windowAt, closedRows, exC2w, spanHours, cfgC2, defaultConfig,
    pressureDiffs, mkPeriod4, qmaxList, row0]

theorem evalC2w_check4 :
    check_pressure_difference cfgC2 exC2w = (true, [⟨0, 2, .num 5, .nan⟩]) := by
  simp only [check_pressure_difference]
  rw [if_pos (by norm_num [closedRows, exC2w, cfgC2, defaultConfig])]
  simp only [collectPeriods]
  rw [show (closedRows exC2w).length - cfgC2.closed_hours = 1 from rfl]
  rw [show List.range 1 = [0] from rfl]
  simp [evalC2w_m4]

theorem evalC2w_run : run_all_checks cfgC2 exC2w
    = ⟨(false, []), (false, []), (false, []), (true, [⟨0, 2, .num 5, .nan⟩])⟩ := by
  simp only [run_all_checks, evalC2w_check4]
  rfl

/-! ### Small bridging fact for the detection flag -/

theorem bnot_isEmpty_iff {l : List Period} : (!l.isEmpty) = true ↔ l ≠ [] := by
  cases l <;> simp

/-! ## The claims -/

/-- Claim C1, counterexample: with `days_window = 2` and a three-day joined
series, the window starting at index `count - days_window = 1` satisfies
detector 1's own match condition (pressure up 30 %, flow down 50 %), and on
a second input detector 2's condition (pressure change 2 % within the 5 %
stability bound, flow down 50 %) — yet both detectors report no period and
no detection, because the loop `range(len - days_window)` stops one short
of the claimed inclusive upper index. -/
theorem C1_counterexample :
    matchWindow1 cfgC1 (daily_pressure exC1) (daily_gas_production exC1)
        ((daily_gas_production exC1).length - cfgC1.days_window)
      = some ⟨24, 48, .num 30, .num (-50)⟩ ∧
    check_pressure_up_flow_down cfgC1 exC1 = (false, []) ∧
    matchWindow2 cfgC1 (daily_pressure exC1b) (daily_gas_production exC1b)
        ((daily_gas_production exC1b).length - cfgC1.days_window)
      = some ⟨24, 48, .num 2, .num (-50)⟩ ∧
    check_stable_pressure_flow_down cfgC1 exC1b = (false, []) := by
  refine ⟨?_, evalC1_check, ?_, evalC1b_check⟩
  · rw [show (daily_gas_production exC1).length - cfgC1.days_window = 1 from rfl]
    exact evalC1_m1
  · rw [show (daily_gas_production exC1b).length - cfgC1.days_window = 1 from rfl]
    exact evalC1b_m1

/-- Claim C1 (amended): for Detectors 1 and 2 a window is evaluated at every
start index `i` from 0 up to `count - days_window - 1` inclusive (the
Python loop `range(len - days_window)` — the window whose last element is
the final joined index is never evaluated), with stride 1 over the joined
daily pressure/production series; each window is compared by its first
value (index `i`) and last value (index `i + days_window - 1`), which is
exactly what `matchWindow1`/`matchWindow2` compute; every qualifying
window is reported independently as its own `Period` (`filterMap` keeps
each match), in strictly increasing window-start order, with no
deduplication of overlapping matches. -/
theorem C1_window_enumeration (cfg : Config) (rows : List Row) :
    (check_pressure_up_flow_down cfg rows).2
      = (List.range ((daily_gas_production rows).length - cfg.days_window)).filterMap
          (matchWindow1 cfg (daily_pressure rows) (daily_gas_production rows)) ∧
    (check_stable_pressure_flow_down cfg rows).2
      = (List.range ((daily_gas_production rows).length - cfg.days_window)).filterMap
          (matchWindow2 cfg (daily_pressure rows) (daily_gas_production rows)) ∧
    (check_pressure_up_flow_down cfg rows).2.Pairwise
      (fun p q => p.start_date < q.start_date) ∧
    (check_stable_pressure_flow_down cfg rows).2.Pairwise
      (fun p q => p.start_date < q.start_date) :=
  ⟨check1_periods cfg rows, check2_periods cfg rows,
   check1_starts_mono cfg rows, check2_starts_mono cfg rows⟩

/-- Claim C2, counterexample: on `exC2` (detector 4 fires with end
timestamp hour 2, while every DailyProduction index is a later day) the
classifier raises `IndexError` — modelled as `none` — although the series
does have a most recent value that the claimed fallback would have used.
The claim's "if no such value is resolvable it falls back to the series'
most recent value instead of failing" is false on the code. -/
theorem C2_counterexample :
    (run_all_checks cfgC2 exC2).method4.1 = true ∧
    (daily_gas_production exC2).getLast?.isSome = true ∧
    determine_treatment_stage (run_all_checks cfgC2 exC2)
      (daily_gas_production exC2) = none := by
  refine ⟨by rw [evalC2_run], rfl, ?_⟩
  rw [evalC2_run]
  rfl

/-- Claim C2 (amended): when at least one detector fired, the classifier
selects the maximum period end-date across all four detectors' matched
periods (the per-method last period realises the per-method maximum, and
the accumulated date is the maximum across methods), and the result is
exactly the lookup of the last DailyProduction value whose index is ≤
that date, divided by 10⁴ and classified; when no such value exists the
lookup fails (`IndexError`, modelled `none`) — the fallback to the
series' most recent value is reachable only from the dead branch in
which no fired method supplied a date. -/
theorem C2_stage_lookup (cfg : Config) (rows : List Row)
    (hs : rows.Pairwise (fun a b => a.time < b.time))
    (hfired : anyFired (run_all_checks cfg rows) = true) :
    ∃ d, last_liquid_loading_date (run_all_checks cfg rows) = some d ∧
      (∀ m ∈ methodList (run_all_checks cfg rows), ∀ p ∈ m.2, p.end_date ≤ d) ∧
      (∃ m ∈ methodList (run_all_checks cfg rows), ∃ p ∈ m.2, p.end_date = d) ∧
      determine_treatment_stage (run_all_checks cfg rows) (daily_gas_production rows)
        = (((daily_gas_production rows).filter (fun e => e.1 * 24 ≤ d)).getLast?).map
            (fun e => stageOf (pdiv e.2 (.num 10000))) := by
  obtain ⟨d, hd⟩ := last_date_isSome cfg rows hfired
  obtain ⟨h1, -, h3⟩ := foldl_step_spec _ none d hd
  refine ⟨d, hd, ?_, ?_, determine_fired _ _ hfired hd⟩
  · intro m hm p hp
    obtain ⟨hfst, hmono⟩ := runChecks_fst_mono cfg rows hs m hm
    exact ends_le_of_bound hfst hmono (h3 m hm) p hp
  · rcases h1 with hnone | ⟨m, hm, hme⟩
    · exact absurd hnone (by simp)
    · obtain ⟨-, q, hq, hqd⟩ := methodLastEnd_some hme
      exact ⟨m, hm, q, List.mem_of_getLast?_eq_some hq, hqd⟩

/-- Claim C2, witness: on `exC2w` detector 4 fires (end hour 2), day 0 is
on or before that date, and the classifier returns the stage of the
looked-up value. -/
theorem C2_stage_lookup_witness :
    ∃ d, last_liquid_loading_date (run_all_checks cfgC2 exC2w) = some d ∧
      (∀ m ∈ methodList (run_all_checks cfgC2 exC2w), ∀ p ∈ m.2, p.end_date ≤ d) ∧
      (∃ m ∈ methodList (run_all_checks cfgC2 exC2w), ∃ p ∈ m.2, p.end_date = d) ∧
      determine_treatment_stage (run_all_checks cfgC2 exC2w) (daily_gas_production exC2w)
        = (((daily_gas_production exC2w).filter (fun e => e.1 * 24 ≤ d)).getLast?).map
            (fun e => stageOf (pdiv e.2 (.num 10000))) :=
  C2_stage_lookup cfgC2 exC2w (by decide) (by rw [evalC2w_run]; rfl)

/-- Claim C3: Detector 4 proceeds only when the count of Closed rows is
≥ `closed_hours` (otherwise it reports `(false, [])`); when it proceeds,
its periods are exactly the per-start-index survivors of the window
check; a window whose wall-clock span is not exactly `closed_hours - 1`
hours is silently skipped (it contributes `none`, neither an error nor a
match); and a window with the exact span emits the period carrying the
maximum `|oil_pressure - casing_pressure|` differential iff some hour's
differential exceeds `pressure_diff_threshold`. -/
theorem C3_shut_in_windows (cfg : Config) (rows : List Row) :
    ((closedRows rows).length < cfg.closed_hours →
      check_pressure_difference cfg rows = (false, [])) ∧
    (cfg.closed_hours ≤ (closedRows rows).length →
      (check_pressure_difference cfg rows).2
        = (List.range ((closedRows rows).length - cfg.closed_hours)).filterMap
            (matchWindow4 cfg (closedRows rows))) ∧
    (∀ i, spanHours (windowAt (closedRows rows) cfg.closed_hours i)
        ≠ (cfg.closed_hours : ℤ) - 1 →
      matchWindow4 cfg (closedRows rows) i = none) ∧
    (∀ i, spanHours (windowAt (closedRows rows) cfg.closed_hours i)
        = (cfg.closed_hours : ℤ) - 1 →
      matchWindow4 cfg (closedRows rows) i
        = if ∃ r ∈ windowAt (closedRows rows) cfg.closed_hours i,
              cfg.pressure_diff_threshold < |r.oil_pressure - r.casing_pressure|
          then some (mkPeriod4 (windowAt (closedRows rows) cfg.closed_hours i))
          else none) := by
  refine ⟨?_, fun h => check4_periods cfg rows h, ?_, ?_⟩
  · intro h
    simp [check_pressure_difference, Nat.not_le.2 h]
  · intro i hspan
    simp [matchWindow4, hspan]
  · intro i hspan
    have hiff : ((pressureDiffs (windowAt (closedRows rows) cfg.closed_hours i)).any
        (fun x => decide (cfg.pressure_diff_threshold < x)) = true)
        ↔ ∃ r ∈ windowAt (closedRows rows) cfg.closed_hours i,
            cfg.pressure_diff_threshold < |r.oil_pressure - r.casing_pressure| := by
      simp [pressureDiffs, List.any_eq_true]
    simp only [matchWindow4, hspan, if_true]
    split_ifs with h1 h2 h2
    · rfl
    · exact absurd (hiff.1 h1) h2
    · exact absurd (hiff.2 h2) h1
    · rfl

/-- Claim C3, witness: with no rows at all there are fewer Closed rows
than `closed_hours`, and detector 4 reports no finding. -/
theorem C3_shut_in_windows_witness :
    check_pressure_difference defaultConfig [] = (false, []) :=
  (C3_shut_in_windows defaultConfig []).1 (by decide)

/-- Claim C4: the stage thresholds are inclusive below and exclusive
above — `p ≥ 1.0` gives the column-carrying stage (支柱携带阶段),
`[0.8, 1.0)` the transition stage (过渡阶段), `[0.5, 0.8)` the
foam-assisted lift stage (泡沫助排阶段), `[0.3, 0.5)` the plunger lift
stage (柱塞气举阶段), anything below 0.3 the intermittent production
stage (间歇生产阶段); in particular 1.0, 0.8, 0.3 and 0.29 map to
column-carrying, transition, plunger lift and intermittent. -/
theorem C4_stage_thresholds (q : ℚ) :
    (1 ≤ q → stageOf (.num q) = "支柱携带阶段") ∧
    (8/10 ≤ q ∧ q < 1 → stageOf (.num q) = "过渡阶段") ∧
    (1/2 ≤ q ∧ q < 8/10 → stageOf (.num q) = "泡沫助排阶段") ∧
    (3/10 ≤ q ∧ q < 1/2 → stageOf (.num q) = "柱塞气举阶段") ∧
    (q < 3/10 → stageOf (.num q) = "间歇生产阶段") ∧
    stageOf (.num 1) = "支柱携带阶段" ∧
    stageOf (.num (8/10)) = "过渡阶段" ∧
    stageOf (.num (3/10)) = "柱塞气举阶段" ∧
    stageOf (.num (29/100)) = "间歇生产阶段" := by
  refine ⟨?_, ?_, ?_, ?_, ?_, ?_, ?_, ?_, ?_⟩
  · intro h
    have h1 : pge (.num q) (.num 1) = true := by
      simp only [pge, ple, decide_eq_true_eq]
      exact h
    simp only [stageOf, h1]
    simp
  · rintro ⟨ha, hb⟩
    have h1 : pge (.num q) (.num 1) = false := by
      simp only [pge, ple, decide_eq_false_iff_not]
      linarith
    have h2 : (ple (.num (8/10)) (.num q) && plt (.num q) (.num 1)) = true := by
      simp only [ple, plt, Bool.and_eq_true, decide_eq_true_eq]
      exact ⟨ha, hb⟩
    simp only [stageOf, h1, h2]
    simp
  · rintro ⟨ha, hb⟩
    have h1 : pge (.num q) (.num 1) = false := by
      simp only [pge, ple, decide_eq_false_iff_not]
      linarith
    have h2 : (ple (.num (8/10)) (.num q) && plt (.num q) (.num 1)) = false := by
      simp only [ple, plt]
      rw [decide_eq_false (by linarith : ¬ (8/10 : ℚ) ≤ q)]
      simp
    have h3 : (ple (.num (1/2)) (.num q) && plt (.num q) (.num (8/10))) = true := by
      simp only [ple, plt, Bool.and_eq_true, decide_eq_true_eq]
      exact ⟨ha, hb⟩
    simp only [stageOf, h1, h2, h3]
    simp
  · rintro ⟨ha, hb⟩
    have h1 : pge (.num q) (.num 1) = false := by
      simp only [pge, ple, decide_eq_false_iff_not]
      linarith
    have h2 : (ple (.num (8/10)) (.num q) && plt (.num q) (.num 1)) = false := by
      simp only [ple, plt]
      rw [decide_eq_false (by linarith : ¬ (8/10 : ℚ) ≤ q)]
      simp
    have h3 : (ple (.num (1/2)) (.num q) && plt (.num q) (.num (8/10))) = false := by
      simp only [ple, plt]
      rw [decide_eq_false (by linarith : ¬ (1/2 : ℚ) ≤ q)]
      simp
    have h4 : (ple (.num (3/10)) (.num q) && plt (.num q) (.num (1/2))) = true := by
      simp only [ple, plt, Bool.and_eq_true, decide_eq_true_eq]
      exact ⟨ha, hb⟩
    simp only [stageOf, h1, h2, h3, h4]
    simp
  · intro h
    have h1 : pge (.num q) (.num 1) = false := by
      simp only [pge, ple, decide_eq_false_iff_not]
      linarith
    have h2 : (ple (.num (8/10)) (.num q) && plt (.num q) (.num 1)) = false := by
      simp only [ple, plt]
      rw [decide_eq_false (by linarith : ¬ (8/10 : ℚ) ≤ q)]
      simp
    have h3 : (ple (.num (1/2)) (.num q) && plt (.num q) (.num (8/10))) = false := by
      simp only [ple, plt]
      rw [decide_eq_false (by linarith : ¬ (1/2 : ℚ) ≤ q)]
      simp
    have h4 : (ple (.num (3/10)) (.num q) && plt (.num q) (.num (1/2))) = false := by
      simp only [ple, plt]
      rw [decide_eq_false (by linarith : ¬ (3/10 : ℚ) ≤ q)]
      simp
    simp only [stageOf, h1, h2, h3, h4]
    simp
  · norm_num [stageOf, pge, ple, plt]
  · norm_num [stageOf, pge, ple, plt]
  · norm_num [stageOf, pge, ple, plt]
  · norm_num [stageOf, pge, ple, plt]

/-- Claim C4, witness: productions 0.6 and 0.4 (in 10⁴ units) classify
into the foam-assisted lift and plunger lift stages. -/
theorem C4_stage_thresholds_witness :
    stageOf (.num (6/10)) = "泡沫助排阶段" ∧ stageOf (.num (2/5)) = "柱塞气举阶段" :=
  ⟨(C4_stage_thresholds (6/10)).2.2.1 ⟨by norm_num, by norm_num⟩,
   (C4_stage_thresholds (2/5)).2.2.2.1 ⟨by norm_num, by norm_num⟩⟩

/-- Claim C5: for every configuration and every hourly series, each of
the four detectors reports `detected = true` iff its periods list is
non-empty — `detected` is computed as `bool(found_periods)` in all four
checks, so neither flag/periods mismatch can occur. -/
theorem C5_detected_iff_periods (cfg : Config) (rows : List Row) :
    ((check_pressure_up_flow_down cfg rows).1 = true
      ↔ (check_pressure_up_flow_down cfg rows).2 ≠ []) ∧
    ((check_stable_pressure_flow_down cfg rows).1 = true
      ↔ (check_stable_pressure_flow_down cfg rows).2 ≠ []) ∧
    ((check_sawtooth_pattern cfg rows).1 = true
      ↔ (check_sawtooth_pattern cfg rows).2 ≠ []) ∧
    ((check_pressure_difference cfg rows).1 = true
      ↔ (check_pressure_difference cfg rows).2 ≠ []) := by
  refine ⟨?_, ?_, ?_, ?_⟩
  · rw [check1_fst]
    exact bnot_isEmpty_iff
  · rw [check2_fst]
    exact bnot_isEmpty_iff
  · rw [check3_fst]
    exact bnot_isEmpty_iff
  · rw [check4_fst]
    exact bnot_isEmpty_iff

/-- Claim C7: the flow-side zero-denominator guards — a window whose
starting production is 0 yields `flow_change = 0` (never NaN or an
error), and a zigzag flow window whose (skipna) mean is 0 yields
`flow_fluctuation = 0`; both detectors stay total because the guard
replaces the division by the constant 0. -/
theorem C7_zero_denominator_guards :
    (∀ e : PVal, flow_change (.num 0) e = .num 0) ∧
    (∀ fw : List PVal, pmeanL fw = .num 0 → flow_fluctuation fw = .num 0) := by
  refine ⟨fun e => by simp [flow_change], fun fw h => by simp [flow_fluctuation, h]⟩

/-- Claim C7, witness: a window starting at production 0, and the flow
window `[2, -2]` whose mean is 0, both fall back to 0. -/
theorem C7_zero_denominator_guards_witness :
    flow_change (.num 0) (.num 7) = .num 0 ∧
    flow_fluctuation [.num 2, .num (-2)] = .num 0 :=
  ⟨C7_zero_denominator_guards.1 (.num 7),
   C7_zero_denominator_guards.2 [.num 2, .num (-2)]
     (by
       unfold pmeanL
       rw [show numsOf [PVal.num 2, PVal.num (-2)] = [2, -2] from rfl]
       norm_num)⟩

/-- Claim C8: empty or insufficient input degrades to "no finding": with
no Open rows the daily production series is empty and detectors 1–3
report `(false, [])`; a joined series shorter than `days_window`
(resp. `zigzag_window`) yields `(false, [])` for detectors 1–2
(resp. 3); fewer Closed rows than `closed_hours` yields `(false, [])`
for detector 4.  All four checks are total functions, so no case can
fail the other detectors. -/
theorem C8_insufficient_data (cfg : Config) (rows : List Row) :
    (openRows rows = [] →
      daily_gas_production rows = [] ∧
      check_pressure_up_flow_down cfg rows = (false, []) ∧
      check_stable_pressure_flow_down cfg rows = (false, []) ∧
      check_sawtooth_pattern cfg rows = (false, [])) ∧
    ((daily_gas_production rows).length < cfg.days_window →
      check_pressure_up_flow_down cfg rows = (false, []) ∧
      check_stable_pressure_flow_down cfg rows = (false, [])) ∧
    ((daily_pressure rows).length < cfg.zigzag_window →
      check_sawtooth_pattern cfg rows = (false, [])) ∧
    ((closedRows rows).length < cfg.closed_hours →
      check_pressure_difference cfg rows = (false, [])) := by
  refine ⟨?_, ?_, ?_, ?_⟩
  · intro h
    have hspan : daysSpan (openRows rows) = [] := by rw [h]; rfl
    have htot : daily_gas_production rows = [] := by
      unfold daily_gas_production daily_total
      rw [hspan]
      rfl
    have hdp : daily_pressure rows = [] := by
      unfold daily_pressure
      rw [hspan]
      rfl
    exact ⟨htot,
      by simp [check_pressure_up_flow_down, htot, collectPeriods],
      by simp [check_stable_pressure_flow_down, htot, collectPeriods],
      by simp [check_sawtooth_pattern, hdp, collectPeriods]⟩
  · intro h
    have h0 : (daily_gas_production rows).length - cfg.days_window = 0 :=
      Nat.sub_eq_zero_of_le (Nat.le_of_lt h)
    exact ⟨by simp [check_pressure_up_flow_down, h0, collectPeriods],
           by simp [check_stable_pressure_flow_down, h0, collectPeriods]⟩
  · intro h
    have h0 : (daily_pressure rows).length - cfg.zigzag_window = 0 :=
      Nat.sub_eq_zero_of_le (Nat.le_of_lt h)
    simp [check_sawtooth_pattern, h0, collectPeriods]
  · intro h
    simp [check_pressure_difference, Nat.not_le.2 h]

/-- Claim C8, witness: the empty hourly series has no Open rows, fewer
joined days than any positive window, and no Closed rows, and every
detector reports `(false, [])`. -/
theorem C8_insufficient_data_witness :
    daily_gas_production ([] : List Row) = [] ∧
    check_pressure_up_flow_down defaultConfig [] = (false, []) ∧
    check_stable_pressure_flow_down defaultConfig [] = (false, []) ∧
    check_sawtooth_pattern defaultConfig [] = (false, []) ∧
    check_pressure_difference defaultConfig [] = (false, []) := by
  obtain ⟨h1, -, -, h4⟩ := C8_insufficient_data defaultConfig []
  obtain ⟨ha, hb, hc, hd⟩ := h1 rfl
  exact ⟨ha, hb, hc, hd, h4 (by decide)⟩

/-- Claim C9: when no detector fired the classifier labels the well
"Normal Production" (正常生产阶段) and performs no lookup into the
DailyProduction series — the result is the same for every series,
including the empty one on which any lookup would fail. -/
theorem C9_normal_stage (res : Results) (daily : List (ℕ × PVal))
    (h : anyFired res = false) :
    determine_treatment_stage res daily = some "正常生产阶段" := by
  unfold determine_treatment_stage
  rw [h]
  rfl

/-- Claim C9, witness: the all-false result record with the empty
production series. -/
theorem C9_normal_stage_witness :
    determine_treatment_stage ⟨(false, []), (false, []), (false, []), (false, [])⟩ []
      = some "正常生产阶段" :=
  C9_normal_stage ⟨(false, []), (false, []), (false, []), (false, [])⟩ [] rfl

/-- Claim C10: the pressure-side denominators are unguarded, unlike the
flow side.  On `exC10` the detector-1 window starting at day 1 divides
by a zero daily mean casing pressure and yields `pressure_change = +inf`
(which even satisfies the match condition, so a period carrying `inf` is
emitted); the same window makes detector 2's `abs(pressure_change)`
infinite, so it does not match where the flow-side "defined as 0"
fallback would have matched; and on `exC10c` detector 3's zero-mean
pressure window yields `pressure_fluctuation = +inf` in an emitted
period.  In all three the result is not the defined-as-0 fallback. -/
theorem C10_unguarded_pressure :
    check_pressure_up_flow_down cfgC1 exC10 = (true, [⟨24, 48, .pinf, .num (-50)⟩]) ∧
    pressure_change (.num 0) (.num 5) = .pinf ∧
    check_stable_pressure_flow_down cfgC1 exC10 = (false, []) ∧
    pabs (pressure_change (.num 0) (.num 5)) = .pinf ∧
    check_sawtooth_pattern defaultConfig exC10c
      = (true, [⟨0, 48, .pinf, .num (200/3)⟩]) ∧
    pressure_fluctuation [.num (-5), .num 0, .num 5] = .pinf := by
  refine ⟨evalC10_check1, ?_, evalC10_check2, ?_, evalC10c_check3, evalC10c_pf⟩
  · norm_num [pressure_change, psub, pdiv, pmul]
  · norm_num [pressure_change, pabs, psub, pdiv, pmul]

/-- Claim C6, counterexample: on `exC6` the open rows fall on days 0 and
2 with a fully closed day 1 in between.  `resample('D')` materialises
the empty day as NaN and the diff of a NaN neighbour is NaN, so the
aggregator output has zero valid entries where the claim requires
`distinct open days - 1 = 1`, and it differs from the groupby reference
definition (which has 2 entries, one valid). -/
theorem C6_counterexample :
    countValid (daily_gas_production exC6) = 0 ∧
    (distinctDays (openRows exC6)).length - 1 = 1 ∧
    daily_gas_production exC6 ≠ referenceDailyProduction exC6 := by
  refine ⟨rfl, rfl, ?_⟩
  intro h
  have h3 : (daily_gas_production exC6).length = 3 := rfl
  have h2 : (referenceDailyProduction exC6).length = 2 := rfl
  rw [h, h2] at h3
  exact absurd h3 (by decide)

/-- Claim C6 (amended): the aggregator resamples over the full
calendar-day span of the open rows.  When every day in that span
contains at least one open row (no gap days), it equals the reference
definition — open rows grouped by calendar day, last `total_gas_flow`
per day, first difference — and its output has exactly one fewer valid
entry than the number of distinct open days, the first (NaN) entry being
the only invalid one; a day in the span with no open rows inserts
additional NaN entries and breaks both properties. -/
theorem C6_aggregator (rows : List Row)
    (hs : rows.Pairwise (fun a b => a.time < b.time))
    (hne : openRows rows ≠ [])
    (hcov : ∀ d ∈ daysSpan (openRows rows), ∃ r ∈ openRows rows, dayOf r.time = d) :
    daily_gas_production rows = referenceDailyProduction rows ∧
    (daily_gas_production rows).length = (distinctDays (openRows rows)).length ∧
    countValid (daily_gas_production rows) = (distinctDays (openRows rows)).length - 1 ∧
    (daily_gas_production rows).head?.map (fun e => e.2) = some PVal.nan := by
  have hdd := distinctDays_eq_daysSpan hs hne hcov
  have hvals := daily_total_values hcov
  have hlen : (daily_total rows).length = (daysSpan (openRows rows)).length := by
    simp [daily_total]
  refine ⟨?_, ?_, ?_, daily_gas_head (daysSpan_ne_nil (hs.filter _) hne)⟩
  · unfold daily_gas_production referenceDailyProduction daily_total
    rw [hdd]
  · unfold daily_gas_production
    rw [diffSeries_length, hlen, hdd]
  · unfold daily_gas_production
    rw [countValid_diffSeries hvals, hlen, hdd]

/-- Claim C6, witness: two consecutive open days — the aggregator agrees
with the reference and has exactly one valid entry. -/
theorem C6_aggregator_witness :
    daily_gas_production exC6w = referenceDailyProduction exC6w ∧
    (daily_gas_production exC6w).length = (distinctDays (openRows exC6w)).length ∧
    countValid (daily_gas_production exC6w) = (distinctDays (openRows exC6w)).length - 1 ∧
    (daily_gas_production exC6w).head?.map (fun e => e.2) = some PVal.nan :=
  C6_aggregator exC6w (by decide) (by decide) (by decide)
